import Mathlib

/-!
# Verification of the essl-agent-backend orchestration core

A shallow embedding of the agent's orchestration layer:

* `ESSLDeviceCore.get_attendance` / `update_user` (src/app/core/v1/essl.py),
* `DevicePoolManager` registration and the `MultiDeviceCommandHandler`
  dispatch (src/app/core/v1/device_pool.py),
* the `StreamManager` engine (src/app/core/v1/stream_manager.py), and
* the `MultiDeviceStreamCoordinator` (src/app/core/v1/stream.py).

Python dictionaries holding heterogeneous JSON-ish data are embedded as the
inductive `Value`; Python `None` is `Value.vnull` (or `Option.none` for fields
typed as optional).  External collaborators (the pyzk connection, the HTTP
client, wall-clock time) are passed in as explicit oracle arguments, so every
definition is an executable function of its inputs.
-/

namespace EsslAgent

/-- JSON-like values, the payloads moved around by the agent.  `vdatetime n`
stands for a timezone-aware Python `datetime` whose UTC epoch is `n`
(`datetime.fromtimestamp(n, tz=timezone.utc)`). -/
inductive Value where
  | vnull : Value
  | vbool : Bool → Value
  | vint : Int → Value
  | vstr : String → Value
  | vdatetime : Int → Value
  | vlist : List Value → Value
  | vdict : List (String × Value) → Value

/-- Python truthiness of a `Value` (`if x:`):  `None`, `False`, `0`, `""`,
`[]` and `{}` are falsy; a `datetime` object is always truthy. -/
def Value.truthy : Value → Bool
  | .vnull => false
  | .vbool b => b
  | .vint n => n != 0
  | .vstr s => s ≠ ""
  | .vdatetime _ => true
  | .vlist xs => !xs.isEmpty
  | .vdict kvs => !kvs.isEmpty

/-- Parameter dictionaries (`params` of a command), keys are strings. -/
abbrev Params := List (String × Value)

/-- `params.get(key)` — `None` when the key is absent. -/
def pget (p : Params) (k : String) : Option Value :=
  p.lookup k

/-- `params.get(key, default)`. -/
def pgetD (p : Params) (k : String) (d : Value) : Value :=
  (pget p k).getD d

/-- `params[key] = v` on a Python dict: overwrite in place if present
(keys are unique in a dict, so overwriting the first occurrence is
overwriting the occurrence), append otherwise. -/
def pset : Params → String → Value → Params
  | [], k, v => [(k, v)]
  | (k', v') :: rest, k, v =>
      if k' = k then (k, v) :: rest else (k', v') :: pset rest k v

/-! ## `ESSLDeviceCore.get_attendance` (essl.py lines 374–427)

The raw logs coming back from `conn.get_attendance()` are embedded after the
per-record formatting loop (lines 399–407): `_format_datetime` has already
turned the timestamp into `Option Int` (UTC epoch or `None`).  The
`start_time`/`end_time` arguments are timezone-aware datetimes in the source;
line 411 reduces each to its UTC epoch, so they are embedded directly as the
epoch `Int`. -/

/-- One formatted attendance record (the dict built at essl.py lines 400–406). -/
structure AttLog where
  user_id : Option String
  timestamp : Option Int
  status : Option Int
  punch : Option Int
  uid : Option Int
  deriving Repr, DecidableEq

/-- Sort key used at essl.py line 420: `x["timestamp"] or 0`. -/
def attSortKey (l : AttLog) : Int :=
  match l.timestamp with
  | some t => if t = 0 then 0 else t
  | none => 0

/-- The comparison Python's stable descending sort realises: earlier-or-equal
keys after later ones, ties keeping original order.  Mathlib's
`List.insertionSort` with this relation is exactly `list.sort(key=…,
reverse=True)`. -/
def attGE (a b : AttLog) : Prop := attSortKey b ≤ attSortKey a

instance : DecidableRel attGE := fun a b => by
  unfold attGE; infer_instance

instance : IsTotal AttLog attGE :=
  ⟨fun a b => le_total (attSortKey b) (attSortKey a)⟩

instance : IsTrans AttLog attGE :=
  ⟨fun _ _ _ h h' => le_trans h' h⟩

/-- The truthy guard of essl.py line 412/415: `l["timestamp"] and …` — a
record with a `None` or `0` timestamp never passes a time filter. -/
def tsTruthy (l : AttLog) : Bool :=
  match l.timestamp with
  | some t => t != 0
  | none => false

/-- The combined record filter of essl.py lines 410–417 for given optional
`start_time`/`end_time` epochs and `user_id`.  Note the `if user_id:` guard:
an empty-string `user_id` disables the filter. -/
def attKeep (start_time end_time : Option Int) (user_id : Option String)
    (l : AttLog) : Bool :=
  (match start_time with
   | some s => tsTruthy l && decide ((l.timestamp.getD 0) ≥ s)
   | none => true) &&
  (match end_time with
   | some e => tsTruthy l && decide ((l.timestamp.getD 0) ≤ e)
   | none => true) &&
  (match user_id with
   | some u => if u = "" then true else l.user_id == some u
   | none => true)

/-- Python slice `logs[:limit]` for an arbitrary (possibly negative) `limit`. -/
def pySliceTo (logs : List AttLog) (limit : Int) : List AttLog :=
  if limit ≥ 0 then logs.take limit.toNat
  else logs.take (logs.length - (-limit).toNat)

/-- `ESSLDeviceCore.get_attendance` (essl.py lines 374–427) after the
formatting loop: filter, sort newest-first (stable), then truncate.  The
`if limit:` guard at line 422 makes `limit = 0` (and `None`) mean "no
truncation". -/
def get_attendance (raw : List AttLog) (start_time end_time : Option Int)
    (user_id : Option String) (limit : Option Int) : List AttLog :=
  let logs := raw.filter (attKeep start_time end_time user_id)
  let sorted := List.insertionSort attGE logs
  match limit with
  | some n => if n = 0 then sorted else pySliceTo sorted n
  | none => sorted

/-- The spec's description of the same operation ("exactly the records whose
timestamp lies in the requested window and whose user_id matches"), modelled
from the claim's words for comparison: a record is kept iff its timestamp is
inside the closed window, with no extra truthiness condition. -/
def attKeepSpec (start_time end_time : Option Int) (user_id : Option String)
    (l : AttLog) : Bool :=
  (match start_time, l.timestamp with
   | some s, some t => decide (s ≤ t)
   | some _, none => false
   | none, _ => true) &&
  (match end_time, l.timestamp with
   | some e, some t => decide (t ≤ e)
   | some _, none => false
   | none, _ => true) &&
  (match user_id with
   | some u => l.user_id == some u
   | none => true)

/-- `get_attendance` as the claim describes it: window/user filter, sorted
newest-first, limit truncation after sorting. -/
def get_attendance_spec (raw : List AttLog) (start_time end_time : Option Int)
    (user_id : Option String) (limit : Option Int) : List AttLog :=
  let sorted := List.insertionSort attGE
    (raw.filter (attKeepSpec start_time end_time user_id))
  match limit with
  | some n => pySliceTo sorted n
  | none => sorted

/-! ## `ESSLDeviceCore.update_user` (essl.py lines 294–348) -/

/-- A raw user record as it lives on the device (the pyzk `User` object
consumed at essl.py lines 320–330 and written back via `set_user`). -/
structure DUser where
  uid : Int
  user_id : String
  name : String
  privilege : Int
  password : String
  card : Int
  deriving Repr, DecidableEq

/-- The device-side user table. -/
structure DeviceState where
  users : List DUser
  deriving Repr, DecidableEq

/-- `conn.set_user` keyed by uid: overwrite the record with this uid if
present, append otherwise. -/
def setUser (d : DeviceState) (u : DUser) : DeviceState :=
  if d.users.any (fun v => v.uid == u.uid) then
    ⟨d.users.map (fun v => if v.uid == u.uid then u else v)⟩
  else
    ⟨d.users ++ [u]⟩

/-- `next((u for u in users if u.uid == uid), None)` — essl.py line 321. -/
def findUser (d : DeviceState) (uid : Int) : Option DUser :=
  d.users.find? (fun v => v.uid == uid)

/-- `ESSLDeviceCore.update_user` (essl.py lines 294–348).  Returns the device
state after the call together with either the success dict or the message of
the raised `DeviceError` (the inner `DeviceError` is re-wrapped by the
`except Exception` handler at line 347). -/
def update_user (d : DeviceState) (uid : Int)
    (name : Option String) (privilege : Option Int)
    (password : Option String) (card : Option Int) :
    DeviceState × Except String Value :=
  match findUser d uid with
  | none =>
      (d, .error s!"Failed to update user: User with UID {uid} not found on device")
  | some existing =>
      let merged : DUser :=
        { uid := uid
          user_id := existing.user_id
          name := name.getD existing.name
          privilege := privilege.getD existing.privilege
          password := password.getD existing.password
          card := card.getD existing.card }
      (setUser d merged,
       .ok (.vdict [("success", .vbool true),
                    ("message", .vstr s!"User {uid} updated successfully")]))

/-! ## `DevicePoolManager` (device_pool.py lines 65–575)

Registry keys are `Option String`: a registration whose `device_id` parameter
is Python `None` stores the key `None`, and lookups with a missing parameter
look that same key up, exactly as a Python dict does. -/

/-- Defaults of device_pool.py lines 26–28. -/
def DEFAULT_PORT : Int := 4370
def DEFAULT_PASSWORD : Int := 0
def DEFAULT_TIMEOUT : Int := 10

/-- The `DeviceInfo` dataclass (device_pool.py lines 32–61). -/
structure DeviceInfo where
  device_id : Option String
  device_ip : Option String
  port : Int := DEFAULT_PORT
  password : Int := DEFAULT_PASSWORD
  timeout : Int := DEFAULT_TIMEOUT
  name : Option String := none
  location : Option String := none
  is_active : Bool := true
  last_seen : Option Int := none
  deriving Repr, DecidableEq

/-- How a Python f-string renders an optional string (`None` prints as
`"None"`). -/
def pyShow (id : Option String) : String :=
  id.getD "None"

/-- Lift an optional string into a `Value` (`None` / `str`). -/
def optStr : Option String → Value
  | none => .vnull
  | some s => .vstr s

/-- Lift an optional int into a `Value`. -/
def optInt : Option Int → Value
  | none => .vnull
  | some n => .vint n

/-- `DeviceInfo.to_dict` (device_pool.py lines 51–61) — note it exposes
neither `password` nor `timeout`. -/
def DeviceInfo.to_dict (d : DeviceInfo) : Value :=
  .vdict [("device_id", optStr d.device_id),
          ("device_ip", optStr d.device_ip),
          ("port", .vint d.port),
          ("name", optStr d.name),
          ("location", optStr d.location),
          ("is_active", .vbool d.is_active),
          ("last_seen", optInt d.last_seen)]

/-- The connection parameters an `ESSLDeviceCore` is constructed with
(essl.py lines 28–54); the pool keeps one per registered device. -/
structure CoreParams where
  device_ip : Option String
  port : Int := 4370
  password : Int := 0
  deriving Repr, DecidableEq

/-- The mutable state of one `DevicePoolManager`: the `devices` and
`device_cores` dicts plus the JSON snapshot `data.json` holds after the last
`_save_devices` (device_pool.py lines 77–85, 531–541). -/
structure PoolState where
  devices : List (Option String × DeviceInfo)
  device_cores : List (Option String × CoreParams)
  data_file : List (Option String × Value)

/-- The pool as a fresh process sees it with no `data.json` on disk. -/
def PoolState.empty : PoolState := ⟨[], [], []⟩

/-- `_save_devices` (device_pool.py lines 531–541): rewrite the file with
`to_dict` of every record. -/
def saveDevices (p : PoolState) : PoolState :=
  { p with data_file := p.devices.map (fun kv => (kv.1, kv.2.to_dict)) }

/-- `DevicePoolManager.register_device` (device_pool.py lines 91–157).
`port?`/`password?` are `none` when the caller passed Python `None`; the
"✅ FIX" at lines 123–124 substitutes the documented defaults.  Returns the
new pool state and the result dict. -/
def register_device (p : PoolState) (device_id device_ip : Option String)
    (port? password? : Option Int) (name location : Option String) :
    PoolState × Value :=
  if (p.devices.lookup device_id).isSome then
    (p, .vdict [("success", .vbool false),
                ("message", .vstr s!"Device {pyShow device_id} already registered"),
                ("device_id", optStr device_id)])
  else
    let actual_port := port?.getD DEFAULT_PORT
    let actual_password := password?.getD DEFAULT_PASSWORD
    let info : DeviceInfo :=
      { device_id := device_id, device_ip := device_ip,
        port := actual_port, password := actual_password,
        name := name, location := location, is_active := true }
    let core : CoreParams :=
      { device_ip := device_ip, port := actual_port, password := actual_password }
    let p' := saveDevices
      { p with devices := p.devices ++ [(device_id, info)],
               device_cores := p.device_cores ++ [(device_id, core)] }
    (p', .vdict [("success", .vbool true),
                 ("message", .vstr s!"Device {pyShow device_id} registered successfully"),
                 ("device", info.to_dict)])

/-- `DevicePoolManager.unregister_device` (device_pool.py lines 159–195).
The best-effort `disconnect` (errors swallowed) has no effect on pool state. -/
def unregister_device (p : PoolState) (device_id : Option String) :
    PoolState × Value :=
  if (p.devices.lookup device_id).isSome then
    let p' := saveDevices
      { p with devices := p.devices.filter (fun kv => kv.1 ≠ device_id),
               device_cores := p.device_cores.filter (fun kv => kv.1 ≠ device_id) }
    (p', .vdict [("success", .vbool true),
                 ("message", .vstr s!"Device {pyShow device_id} unregistered successfully")])
  else
    (p, .vdict [("success", .vbool false),
                ("message", .vstr s!"Device {pyShow device_id} not found")])

/-- `DevicePoolManager.list_devices` (device_pool.py lines 285–293): a bare
Python list of `to_dict` snapshots. -/
def list_devices (p : PoolState) : Value :=
  .vlist (p.devices.map (fun kv => kv.2.to_dict))

/-- `DevicePoolManager.get_device_info` (device_pool.py lines 272–283). -/
def get_device_info (p : PoolState) (device_id : Option String) :
    Option DeviceInfo :=
  (p.devices.lookup device_id)

/-- `_update_last_seen` (device_pool.py lines 504–508). -/
def updateLastSeen (p : PoolState) (device_id : Option String) (now : Int) :
    PoolState :=
  let upd := fun (kv : Option String × DeviceInfo) =>
    if kv.1 = device_id then (kv.1, { kv.2 with last_seen := some now }) else kv
  { p with devices := p.devices.map upd }

/-! ## Health checks and device operations (oracled device / network I/O) -/

/-- What the network does when `check_device_health` probes a device:
the `is_online()` socket probe and, if attempted, the outcome of
`get_device_info()` inside the scoped connection. -/
structure HealthOracle where
  is_online : Bool
  info : Except String (List (String × Value))

/-- `DevicePoolManager.check_device_health` (device_pool.py lines 414–477).
Every branch returns a dict. -/
def check_device_health (p : PoolState) (device_id : Option String)
    (o : HealthOracle) (now : Int) : PoolState × Value :=
  match p.devices.lookup device_id, p.device_cores.lookup device_id with
  | some info, some _ =>
      let base := [("device_id", optStr device_id),
                   ("device_ip", optStr info.device_ip),
                   ("online", .vbool o.is_online),
                   ("last_seen", optInt info.last_seen)]
      if o.is_online then
        match o.info with
        | .ok extra =>
            (updateLastSeen p device_id now,
             .vdict (base ++ [("firmware", pgetD extra "firmware" .vnull),
                              ("platform", pgetD extra "platform" .vnull),
                              ("serial_number", pgetD extra "serial_number" .vnull),
                              ("device_time", pgetD extra "device_time" .vnull)]))
        | .error e =>
            (p, .vdict (base ++ [("connection_error", .vstr e),
                                 ("can_connect", .vbool false)]))
      else (p, .vdict base)
  | _, _ =>
      (p, .vdict [("device_id", optStr device_id),
                  ("online", .vbool false),
                  ("error", .vstr "Device not found")])

/-- What a device operation invoked through `execute_on_device` does: the
value it returns, or the exception class it raises (device_pool.py lines
390–412 catch `TypeError`, `DeviceError` and everything else separately;
a failing `connect()` inside the scoped connection surfaces as `DeviceError`). -/
inductive OpOutcome where
  | ok : Value → OpOutcome
  | typeError : String → OpOutcome
  | deviceError : String → OpOutcome
  | otherError : String → OpOutcome

/-- The public methods of `ESSLDeviceCore` that `getattr(device_core,
operation)` can resolve (essl.py). -/
def coreMethods : List String :=
  ["connect", "disconnect", "connection", "get_device_info", "get_device_status",
   "is_online", "get_users", "get_user_by_uid", "create_user", "update_user",
   "delete_user", "get_attendance", "clear_attendance", "unlock_door",
   "restart_device", "set_device_time", "get_templates", "save_template"]

/-- Routing-only keys stripped at device_pool.py line 364. -/
def routingParams : List String := ["device_id", "device_ip", "agent_id"]

/-- `DevicePoolManager.execute_on_device` (device_pool.py lines 311–412).
`ident` is the `device_identifier`; `outcome` is the oracle for the actual
method call.  Returns the pool state after the call plus the result dict —
every exit path returns a dict, never an exception. -/
def execute_on_device (p : PoolState) (ident : String) (operation : String)
    (kwargs : Params) (outcome : OpOutcome) (now : Int) : PoolState × Value :=
  let isId := (p.devices.lookup (some ident)).isSome
  let core : Option CoreParams :=
    if isId then p.device_cores.lookup (some ident)
    else
      match p.devices.find? (fun kv => kv.2.device_ip = some ident) with
      | some kv => p.device_cores.lookup kv.1
      | none => some { device_ip := some ident }   -- temporary throwaway core
  match core with
  | none =>
      (p, .vdict [("success", .vbool false),
                  ("error", .vstr s!"Device {ident} not found"),
                  ("device_id", .vstr ident)])
  | some _ =>
      if operation ∈ coreMethods then
        let _cleaned := kwargs.filter (fun kv => kv.1 ∉ routingParams)
        match outcome with
        | .ok v =>
            (updateLastSeen p (some ident) now,
             .vdict [("success", .vbool true),
                     ("device_id", .vstr ident),
                     ("operation", .vstr operation),
                     ("result", v)])
        | .typeError e =>
            (p, .vdict [("success", .vbool false),
                        ("error", .vstr s!"Parameter error: {e}"),
                        ("device_id", .vstr ident),
                        ("operation", .vstr operation),
                        ("hint", .vstr "Check if method signature matches provided parameters")])
        | .deviceError e =>
            (p, .vdict [("success", .vbool false),
                        ("error", .vstr e),
                        ("device_id", .vstr ident),
                        ("operation", .vstr operation)])
        | .otherError e =>
            (p, .vdict [("success", .vbool false),
                        ("error", .vstr s!"Unexpected error: {e}"),
                        ("device_id", .vstr ident),
                        ("operation", .vstr operation)])
      else
        (p, .vdict [("success", .vbool false),
                    ("error", .vstr s!"Unknown operation: {operation}"),
                    ("device_id", .vstr ident)])

/-! ## `MultiDeviceCommandHandler` (device_pool.py lines 579–774) -/

/-- The outbound result envelope (the dict returned by `execute_command`). -/
structure ResultEnvelope where
  id : Option String
  agent_id : String
  command : Option String
  mac_address : String
  result : Value
  device_ip : Value
  device_id : Value
  success : Bool
  timestamp : Int

/-- An inbound command (`command_data`): the fields `execute_command` reads
with `.get` at device_pool.py lines 635–646.  Routing fields are modelled as
optional strings — the server sends strings or omits them. -/
structure CommandData where
  id : Option String
  command : Option String
  device_id : Option String
  device_ip : Option String
  params : Params

/-- A string parameter fetched with `params.get(key)`; an absent key is
Python `None`. -/
def paramStr (p : Params) (k : String) : Option String :=
  match pget p k with
  | some (.vstr s) => some s
  | _ => none

/-- An int parameter fetched with `params.get(key, default)` and handed to
`register_device`: an absent key yields the default, an explicit `null`
yields Python `None` (to be fixed up by `register_device` itself). -/
def paramIntD (p : Params) (k : String) (d : Int) : Option Int :=
  match pget p k with
  | none => some d
  | some (.vint n) => some n
  | some _ => none

/-- `x or y` + `if not x:` on optional strings: Python treats `None` and
`""` as falsy. -/
def truthyOptStr : Option String → Option String
  | none => none
  | some s => if s = "" then none else some s

/-- `device_identifier = command_data.get("device_id") or
command_data.get("device_ip")` followed by the `if not device_identifier`
guard (device_pool.py lines 644–649). -/
def routeTarget (cmd : CommandData) : Option String :=
  (truthyOptStr cmd.device_id).orElse (fun _ => truthyOptStr cmd.device_ip)

/-- `result.get("success", True)` with Python truthiness on the stored value. -/
def dictSuccess : Value → Bool
  | .vdict kvs => match kvs.lookup "success" with
    | some v => v.truthy
    | none => true
  | _ => true

/-- The management commands handled at device_pool.py line 640. -/
def managementCommands : List String :=
  ["register_device", "unregister_device", "list_devices", "device_health"]

/-- `_execute_management_command` (device_pool.py lines 593–631).  The
envelope construction evaluates `result.get("success", True)`; when the
result is not a dict (the `list_devices` branch returns a bare list) the
attribute access raises, and the `except` handler re-raises it as a
`DeviceError` — modelled as the `Except.error` case. -/
def execute_management_command (p : PoolState) (command : String)
    (params : Params) (command_id : Option String) (health : HealthOracle)
    (agent_id mac : String) (now : Int) :
    Except String (PoolState × ResultEnvelope) :=
  let st :=
    if command = "register_device" then
      register_device p (paramStr params "device_id") (paramStr params "device_ip")
        (paramIntD params "port" DEFAULT_PORT) (paramIntD params "password" DEFAULT_PASSWORD)
        (paramStr params "name") (paramStr params "location")
    else if command = "unregister_device" then
      unregister_device p (paramStr params "device_id")
    else if command = "list_devices" then
      (p, list_devices p)
    else if command = "device_health" then
      check_device_health p (paramStr params "device_id") health now
    else (p, .vdict [])
  match st.2 with
  | .vdict kvs =>
      .ok (st.1,
        { id := command_id
          agent_id := agent_id
          command := some command
          mac_address := mac
          result := st.2
          device_ip := pgetD params "device_ip" (.vstr "")
          device_id := pgetD params "device_id" (.vstr "")
          success := match kvs.lookup "success" with
            | some v => v.truthy
            | none => true
          timestamp := now })
  | _ =>
      .error "Failed to execute management command: list object has no attribute get"

/-- The fixed command-name → operation-name table (device_pool.py lines
676–688). -/
def commandMap : List (String × String) :=
  [("get_users", "get_users"),
   ("create_user", "create_user"),
   ("update_user", "update_user"),
   ("delete_user", "delete_user"),
   ("get_attendance", "get_attendance"),
   ("get_device_info", "get_device_info")]

/-- The `get_attendance` parameter pre-processing (device_pool.py lines
706–720): a *truthy* numeric `start_time`/`end_time` is replaced by
`datetime.fromtimestamp(ts, tz=timezone.utc)`, and `limit` is written back as
`params.get("limit", 1000)`.  (A non-numeric truthy value would make
`fromtimestamp` raise in Python; the embedding leaves such values unchanged —
the claims only concern timestamp-valued parameters.) -/
def convertTsParam (params : Params) (key : String) : Params :=
  match pget params key with
  | some (.vint ts) =>
      if ts ≠ 0 then pset params key (.vdatetime ts) else params
  | _ => params

/-- The body of the pre-processing: convert the two time filters, then write
the limit back. -/
def preprocessAttendance (params : Params) : Params :=
  let p2 := convertTsParam (convertTsParam params "start_time") "end_time"
  pset p2 "limit" (pgetD p2 "limit" (.vint 1000))

/-- Params as `execute_on_device` receives them: pre-processed only for
`get_attendance`. -/
def effectiveParams (command : String) (params : Params) : Params :=
  if command = "get_attendance" then preprocessAttendance params else params

/-- The list-wrapping of device_pool.py lines 729–758: the wrapper key
depends on the originating command. -/
def formatOperationResult (command : String) (operation_result : Value) : Value :=
  match operation_result with
  | .vlist xs =>
      if command = "get_users" then
        .vdict [("users", .vlist xs), ("count", .vint xs.length)]
      else if command = "get_attendance" then
        .vdict [("logs", .vlist xs), ("count", .vint xs.length)]
      else
        .vdict [("items", .vlist xs), ("count", .vint xs.length)]
  | .vdict kvs => .vdict kvs
  | v => .vdict [("value", v)]

/-- `MultiDeviceCommandHandler.execute_command` (device_pool.py lines
633–774).  `health` and `outcome` are the oracles for the two kinds of device
I/O a dispatch can perform. -/
def execute_command (p : PoolState) (cmd : CommandData) (health : HealthOracle)
    (outcome : OpOutcome) (agent_id mac : String) (now : Int) :
    Except String (PoolState × ResultEnvelope) :=
  if (match cmd.command with
      | some c => managementCommands.contains c
      | none => false) then
    execute_management_command p (cmd.command.getD "") cmd.params cmd.id health
      agent_id mac now
  else
    match routeTarget cmd with
    | none =>
        .ok (p,
          { id := cmd.id, agent_id := agent_id, command := cmd.command,
            mac_address := mac,
            result := .vdict [("error", .vstr "Missing device_id or device_ip in command")],
            device_ip := .vstr "", device_id := .vstr "",
            success := false, timestamp := now })
    | some ident =>
        match truthyOptStr cmd.command with
        | none =>
            .ok (p,
              { id := cmd.id, agent_id := agent_id, command := cmd.command,
                mac_address := mac,
                result := .vdict [("error", .vstr "Missing command in request")],
                device_ip := .vstr "", device_id := .vstr ident,
                success := false, timestamp := now })
        | some c =>
            match commandMap.lookup c with
            | none =>
                .ok (p,
                  { id := cmd.id, agent_id := agent_id, command := cmd.command,
                    mac_address := mac,
                    result := .vdict [("error", .vstr s!"Unknown command: {c}")],
                    device_ip := .vstr "", device_id := .vstr ident,
                    success := false, timestamp := now })
            | some operation =>
                let st := execute_on_device p ident operation
                  (effectiveParams c cmd.params) outcome now
                let operation_result :=
                  match st.2 with
                  | .vdict kvs => (kvs.lookup "result").getD st.2
                  | v => v
                .ok (st.1,
                  { id := cmd.id, agent_id := agent_id, command := cmd.command,
                    mac_address := mac,
                    result := formatOperationResult c operation_result,
                    device_ip :=
                      (match st.1.devices.lookup (some ident) with
                       | some info => optStr info.device_ip
                       | none => .vstr ident),
                    device_id := .vstr ident,
                    success := dictSuccess st.2,
                    timestamp := now })

/-! ## `StreamManager` (stream_manager.py)

One engine instance.  Device and HTTP I/O are oracled: `AttemptResult` is
what one `http_client.post` call does, a `Bool` is what one
`device.connect()` does (`true` = connected, `false` = `DeviceError`).
Observable side effects (HTTP posts, sleeps, connection attempts) are
collected in an action trace so that timing/attempt claims can be stated. -/

/-- Settings of stream_manager.py lines 31–34. -/
def MAX_RETRY_ATTEMPTS : Nat := 3
def RETRY_DELAY_SECONDS : Nat := 5
def EVENT_QUEUE_MAX_SIZE : Nat := 1000

/-- `StreamMode` (stream_manager.py lines 40–47). -/
inductive StreamMode where
  | initializing | syncing | live | reconnecting | stopped | error
  deriving Repr, DecidableEq

/-- `EventType` (stream_manager.py lines 50–53). -/
inductive EventType where
  | historical | realtime
  deriving Repr, DecidableEq

/-- One recorded error (`_log_error`, stream_manager.py lines 491–505). -/
structure ErrorRecord where
  message : String
  timestamp : Int
  deriving Repr, DecidableEq

/-- The `stats` dict (stream_manager.py lines 104–112). -/
structure StreamStats where
  total_events_sent : Nat := 0
  historical_events_sent : Nat := 0
  realtime_events_sent : Nat := 0
  failed_events : Nat := 0
  last_event_time : Option Int := none
  started_at : Option Int := none
  errors : List ErrorRecord := []
  deriving Repr, DecidableEq

/-- The JSON body POSTed to `{server}/events/attendance`
(stream_manager.py lines 385–390). -/
structure EventPayload where
  device_id : String
  event_type : EventType
  event_data : List (String × Value)
  timestamp : Int

/-- The mutable state of one engine: mode, running flag, device connection
and the per-engine stats and overflow queue. -/
structure EngineState where
  mode : StreamMode := .initializing
  is_running : Bool := false
  connected : Bool := false
  stats : StreamStats := {}
  event_queue : List EventPayload := []

/-- What one HTTP POST attempt does: a response with a status code, or a
transport error (`httpx.RequestError`). -/
inductive AttemptResult where
  | status : Nat → AttemptResult
  | transportError : AttemptResult
  deriving Repr, DecidableEq

/-- Observable actions of the engine, for stating timing/attempt claims. -/
inductive EngineAction where
  | post
  | sleep : Nat → EngineAction
  | connAttempt
  deriving Repr, DecidableEq

/-- `_log_error` (stream_manager.py lines 491–505): append, keep last 50. -/
def logError (s : StreamStats) (msg : String) (now : Int) : StreamStats :=
  let es := s.errors ++ [⟨msg, now⟩]
  { s with errors := if es.length > 50 then es.drop (es.length - 50) else es }

/-- `_queue_failed_event` (stream_manager.py lines 420–432): `put_nowait`
on the bounded queue; `queue.Full` is caught, the event dropped and the drop
logged — nothing is raised. -/
def queueFailedEvent (stats : StreamStats) (q : List EventPayload)
    (payload : EventPayload) (now : Int) : StreamStats × List EventPayload :=
  if q.length < EVENT_QUEUE_MAX_SIZE then
    (stats, q ++ [payload])
  else
    (logError stats "Event queue full - event discarded" now, q)

/-- Status-code test of stream_manager.py line 399. -/
def isSuccessStatus (c : Nat) : Bool :=
  c == 200 || c == 201 || c == 204

/-- The retry loop of `_send_event_to_server` (stream_manager.py lines
395–413) over the (exactly `MAX_RETRY_ATTEMPTS`) per-attempt outcomes:
returns success and the trace of posts and inter-attempt sleeps. -/
def runAttempts : List AttemptResult → Bool × List EngineAction
  | [] => (false, [])
  | r :: rest =>
      let failed_here :=
        match rest with
        | [] => (false, [EngineAction.post])
        | _ =>
            let t := runAttempts rest
            (t.1, EngineAction.post :: EngineAction.sleep RETRY_DELAY_SECONDS :: t.2)
      match r with
      | .status c => if isSuccessStatus c then (true, [EngineAction.post]) else failed_here
      | .transportError => failed_here

/-- Pad the oracle to the three attempts the loop makes; an unlisted attempt
is a transport error. -/
def padAttempts (a : List AttemptResult) : List AttemptResult :=
  [a.getD 0 .transportError, a.getD 1 .transportError, a.getD 2 .transportError]

/-- `_send_event_to_server` (stream_manager.py lines 370–418): up to 3
attempts with a 5 s sleep between them; success bumps `total_events_sent`
and `last_event_time`; exhaustion bumps `failed_events` and queues the
payload.  Total function: nothing escapes as an exception. -/
def sendEventToServer (stats : StreamStats) (q : List EventPayload)
    (payload : EventPayload) (attempts : List AttemptResult) (now : Int) :
    StreamStats × List EventPayload × Bool × List EngineAction :=
  let t := runAttempts (padAttempts attempts)
  if t.1 then
    ({ stats with total_events_sent := stats.total_events_sent + 1,
                  last_event_time := some now }, q, true, t.2)
  else
    let sq := queueFailedEvent
      { stats with failed_events := stats.failed_events + 1 } q payload now
    (sq.1, sq.2, false, t.2)

/-- `_reconnect` (stream_manager.py lines 459–489): 5 s backoff, then up to
3 connect attempts 10 s apart; exhaustion sets `Error`, success just returns
(the mode stays `Reconnecting` — nothing sets it back to `Live`). -/
def reconnectAttempts (s : EngineState) : List Bool → Nat → EngineState × List EngineAction
  | _, 0 => ({ s with mode := .error }, [])
  | results, n + 1 =>
      if s.is_running then
        if results.headD false then
          ({ s with connected := true }, [.connAttempt])
        else
          let t := reconnectAttempts s results.tail n
          if n = 0 then (t.1, EngineAction.connAttempt :: t.2)
          else (t.1, EngineAction.connAttempt :: EngineAction.sleep 10 :: t.2)
      else (s, [])

/-- `_reconnect` proper: set `Reconnecting`, disconnect, back off 5 s, then
try the attempts. -/
def reconnect (s : EngineState) (results : List Bool) :
    EngineState × List EngineAction :=
  let s1 : EngineState := { s with mode := .reconnecting, connected := false }
  let t := reconnectAttempts s1 results MAX_RETRY_ATTEMPTS
  (t.1, EngineAction.sleep 5 :: t.2)

/-- The per-log send loop of `_sync_historical_logs` (stream_manager.py
lines 285–301): each log becomes a `historical` payload; a successful send
bumps `historical_events_sent`.  `attemptsFor` supplies the HTTP outcomes of
each send in order. -/
def syncLogsLoop (device_id : String) (now : Int) :
    List (List (String × Value)) → List (List AttemptResult) →
    StreamStats × List EventPayload →
    StreamStats × List EventPayload × List EngineAction
  | [], _, acc => (acc.1, acc.2, [])
  | log :: rest, atts, acc =>
      let r := sendEventToServer acc.1 acc.2 ⟨device_id, .historical, log, now⟩
        (atts.headD []) now
      let stats' :=
        if r.2.2.1 then
          { r.1 with historical_events_sent := r.1.historical_events_sent + 1 }
        else r.1
      let t := syncLogsLoop device_id now rest atts.tail (stats', r.2.1)
      (t.1, t.2.1, r.2.2.2 ++ t.2.2)

/-- What the device does during the sync phase: the combined outcome of
`connect()` + `get_attendance(start_time=cutoff)` (a failure of either is
caught by the same handlers), and the HTTP outcomes of each send. -/
structure SyncOracle where
  fetch : Except String (List (List (String × Value)))
  attemptsFor : List (List AttemptResult)

/-- `_sync_historical_logs` (stream_manager.py lines 260–311).  Connection
or fetch failure is logged and swallowed — the engine proceeds. -/
def syncHistorical (s : EngineState) (device_id : String) (o : SyncOracle)
    (now : Int) : EngineState × List EngineAction :=
  if s.is_running then
    let s1 : EngineState := { s with mode := .syncing }
    match o.fetch with
    | .error e =>
        ({ s1 with stats := logError s1.stats s!"Device error during sync: {e}" now }, [])
    | .ok logs =>
        let s2 : EngineState := { s1 with connected := true }
        let r := syncLogsLoop device_id now logs o.attemptsFor (s2.stats, s2.event_queue)
        ({ s2 with stats := r.1, event_queue := r.2.1 }, r.2.2)
  else (s, [])

/-- The per-event send loop of the live phase (stream_manager.py lines
334–356): `None` events are skipped; a successful send bumps
`realtime_events_sent`. -/
def liveSendLoop (device_id : String) (now : Int) :
    List (Option (List (String × Value))) → List (List AttemptResult) →
    StreamStats × List EventPayload →
    StreamStats × List EventPayload × List EngineAction
  | [], _, acc => (acc.1, acc.2, [])
  | none :: rest, atts, acc => liveSendLoop device_id now rest atts acc
  | some ev :: rest, atts, acc =>
      let r := sendEventToServer acc.1 acc.2 ⟨device_id, .realtime, ev, now⟩
        (atts.headD []) now
      let stats' :=
        if r.2.2.1 then
          { r.1 with realtime_events_sent := r.1.realtime_events_sent + 1 }
        else r.1
      let t := liveSendLoop device_id now rest atts.tail (stats', r.2.1)
      (t.1, t.2.1, r.2.2.2 ++ t.2.2)

/-- What one iteration of the `while self.is_running` body of
`_live_stream_loop` (stream_manager.py lines 325–366) encounters:
the outcome of `connect()` (consulted only when the device is not
connected), the events `live_capture()` yields before terminating, whether
it terminates by raising (which triggers `_reconnect`), and the reconnect
attempt outcomes. -/
structure LiveIterOracle where
  connectOk : Bool
  events : List (Option (List (String × Value)))
  attemptsFor : List (List AttemptResult)
  endsInError : Bool
  errorMsg : String
  reconnectResults : List Bool
  now : Int

/-- One iteration of the live loop.  Note the loop guard is only
`self.is_running` — the mode (even `Error`) is never consulted, and nothing
sets the mode back to `Live` after a reconnection. -/
def liveIter (s : EngineState) (device_id : String) (o : LiveIterOracle) :
    EngineState × List EngineAction :=
  if s.is_running then
    if !s.connected && !o.connectOk then
      let s1 : EngineState :=
        { s with stats := logError s.stats s!"Device error in live mode: {o.errorMsg}" o.now }
      let r := reconnect s1 o.reconnectResults
      (r.1, EngineAction.connAttempt :: r.2)
    else
      let s1 : EngineState := { s with connected := true }
      let acts0 : List EngineAction := if s.connected then [] else [.connAttempt]
      let r := liveSendLoop device_id o.now o.events o.attemptsFor
        (s1.stats, s1.event_queue)
      let s2 : EngineState := { s1 with stats := r.1, event_queue := r.2.1 }
      if o.endsInError then
        let s3 : EngineState :=
          { s2 with stats := logError s2.stats s!"Device error in live mode: {o.errorMsg}" o.now }
        let rc := reconnect s3 o.reconnectResults
        (rc.1, acts0 ++ r.2.2 ++ rc.2)
      else (s2, acts0 ++ r.2.2)
  else (s, [])

/-- Every state-mutating operation of one engine, with the oracle inputs it
consumes.  `start`/`stop` are the lifecycle calls (stream_manager.py lines
119–200), the rest are the phases of the background task. -/
inductive EngineOp where
  | start : Int → EngineOp
  | stop : EngineOp
  | syncHist : SyncOracle → Int → EngineOp
  | enterLive : EngineOp
  | liveIteration : LiveIterOracle → EngineOp
  | reconnection : List Bool → EngineOp
  | sendEvent : EventPayload → List AttemptResult → Int → EngineOp
  | logErrorOp : String → Int → EngineOp

/-- Apply one engine operation, returning the new state and the trace of
observable actions. -/
def runOp (device_id : String) (op : EngineOp) (s : EngineState) :
    EngineState × List EngineAction :=
  match op with
  | .start now =>
      if s.is_running then (s, [])
      else ({ s with is_running := true,
                     stats := { s.stats with started_at := some now } }, [])
  | .stop =>
      if s.is_running then
        ({ s with is_running := false, mode := .stopped, connected := false }, [])
      else (s, [])
  | .syncHist o now => syncHistorical s device_id o now
  | .enterLive =>
      if s.is_running then ({ s with mode := .live }, []) else (s, [])
  | .liveIteration o => liveIter s device_id o
  | .reconnection results => reconnect s results
  | .sendEvent payload attempts now =>
      let r := sendEventToServer s.stats s.event_queue payload attempts now
      ({ s with stats := r.1, event_queue := r.2.1 }, r.2.2.2)
  | .logErrorOp msg now =>
      ({ s with stats := logError s.stats msg now }, [])

/-! ## `MultiDeviceStreamCoordinator` (stream.py) and the combined system

For registry-consistency claims only the *membership* of
`stream_managers` matters, so the coordinator is embedded as the set of
device ids it holds an engine for. -/

/-- Pool + coordinator. -/
structure SysState where
  pool : PoolState
  streams : List String

/-- The initial system: empty registry (no `data.json`), no engines. -/
def SysState.init : SysState := ⟨PoolState.empty, []⟩

/-- `start_streaming_device` (stream.py lines 63–107): failure result if
already streaming or unknown id; otherwise a fresh `StreamManager` is
started (a fresh manager's `start()` always succeeds) and recorded. -/
def start_streaming_device (s : SysState) (device_id : String) :
    SysState × Value :=
  if s.streams.contains device_id then
    (s, .vdict [("success", .vbool false),
                ("message", .vstr s!"Device {device_id} already streaming"),
                ("device_id", .vstr device_id)])
  else
    match get_device_info s.pool (some device_id) with
    | none =>
        (s, .vdict [("success", .vbool false),
                    ("error", .vstr s!"Device {device_id} not found in pool"),
                    ("device_id", .vstr device_id)])
    | some _ =>
        ({ s with streams := s.streams ++ [device_id] },
         .vdict [("success", .vbool true)])

/-- `stop_streaming_device` (stream.py lines 109–134): a recorded manager is
always running, so its `stop()` succeeds and the engine is removed. -/
def stop_streaming_device (s : SysState) (device_id : String) :
    SysState × Value :=
  if s.streams.contains device_id then
    ({ s with streams := s.streams.filter (fun i => i ≠ device_id) },
     .vdict [("success", .vbool true)])
  else
    (s, .vdict [("success", .vbool false),
                ("message", .vstr s!"Device {device_id} not streaming"),
                ("device_id", .vstr device_id)])

/-- `add_device_and_stream` (stream.py lines 200–251): register, then (if
requested and registration succeeded) start streaming. -/
def add_device_and_stream (s : SysState) (device_id device_ip : String)
    (port : Option Int) (name location : Option String)
    (auto_start_stream : Bool) : SysState × Value :=
  let r := register_device s.pool (some device_id) (some device_ip) port none
    name location
  let s1 : SysState := { s with pool := r.1 }
  if dictSuccess r.2 then
    if auto_start_stream then
      let r2 := start_streaming_device s1 device_id
      (r2.1, .vdict [("success", .vbool true), ("registration", r.2),
                     ("streaming", r2.2)])
    else (s1, .vdict [("success", .vbool true), ("registration", r.2)])
  else (s1, r.2)

/-- `remove_device_and_stop_stream` (stream.py lines 253–277): stop the
stream if one is recorded, then unregister. -/
def remove_device_and_stop_stream (s : SysState) (device_id : String) :
    SysState × Value :=
  let s1 :=
    if s.streams.contains device_id then (stop_streaming_device s device_id).1
    else s
  let r := unregister_device s1.pool (some device_id)
  ({ s1 with pool := r.1 },
   .vdict [("success", .vbool true), ("unregistration", r.2)])

/-- The operations of claim C3's interleavings. -/
inductive SysOp where
  | register : Option String → Option String → Option Int → Option Int →
      Option String → Option String → SysOp
  | unregister : Option String → SysOp
  | startStream : String → SysOp
  | stopStream : String → SysOp
  | addAndStream : String → String → Option Int → Option String →
      Option String → Bool → SysOp
  | removeAndStop : String → SysOp

/-- One system step. -/
def sysStep (op : SysOp) (s : SysState) : SysState :=
  match op with
  | .register id ip port pw name loc =>
      { s with pool := (register_device s.pool id ip port pw name loc).1 }
  | .unregister id => { s with pool := (unregister_device s.pool id).1 }
  | .startStream id => (start_streaming_device s id).1
  | .stopStream id => (stop_streaming_device s id).1
  | .addAndStream id ip port name loc auto =>
      (add_device_and_stream s id ip port name loc auto).1
  | .removeAndStop id => (remove_device_and_stop_stream s id).1

/-- States reachable from the initial system by any interleaving of the
operations named in the claim. -/
inductive Reachable : SysState → Prop where
  | init : Reachable SysState.init
  | step (op : SysOp) {s : SysState} : Reachable s → Reachable (sysStep op s)

/-- "Exactly one enabled DeviceRecord for this id". -/
def exactlyOneEnabled (p : PoolState) (id : String) : Prop :=
  (p.devices.filter (fun kv => kv.1 == some id && kv.2.is_active)).length = 1

instance (p : PoolState) (id : String) : Decidable (exactlyOneEnabled p id) := by
  unfold exactlyOneEnabled; infer_instance

/-- The claimed invariant: every streaming id has exactly one enabled record
(in particular, no engine for an unregistered device). -/
def EngineInv (s : SysState) : Prop :=
  ∀ id ∈ s.streams, exactlyOneEnabled s.pool id

instance (s : SysState) : Decidable (EngineInv s) := by
  unfold EngineInv; infer_instance

/-- An operation is *safe* when it does not unregister a device that is
currently streaming (stream.py's own composite `remove_device_and_stop_stream`
always satisfies this; the bare pool-level `unregister_device` need not). -/
def SafeOp (op : SysOp) (s : SysState) : Prop :=
  match op with
  | .unregister (some id) => id ∉ s.streams
  | _ => True

/-- Reachability along traces whose bare unregistrations never target a
streaming device. -/
inductive SafeReachable : SysState → Prop where
  | init : SafeReachable SysState.init
  | step (op : SysOp) {s : SysState} (hop : SafeOp op s) :
      SafeReachable s → SafeReachable (sysStep op s)

/-! ## Basic lemmas about the embedded dictionary operations -/

theorem pget_pset_same (p : Params) (k : String) (v : Value) :
    pget (pset p k v) k = some v := by
  induction p with
  | nil => simp [pset, pget, List.lookup]
  | cons kv rest ih =>
      obtain ⟨k', v'⟩ := kv
      by_cases h : k' = k
      · subst h
        simp [pset, pget, List.lookup]
      · simp only [pset, if_neg h, pget, List.lookup,
          show (k == k') = false from beq_eq_false_iff_ne.mpr (Ne.symm h)]
        exact ih

theorem pget_pset_ne (p : Params) (k k' : String) (v : Value) (h : k' ≠ k) :
    pget (pset p k v) k' = pget p k' := by
  induction p with
  | nil =>
      simp [pset, pget, List.lookup,
        show (k' == k) = false from beq_eq_false_iff_ne.mpr h]
  | cons kv rest ih =>
      obtain ⟨k0, v0⟩ := kv
      by_cases h0 : k0 = k
      · subst h0
        simp [pset, pget, List.lookup,
          show (k' == k0) = false from beq_eq_false_iff_ne.mpr h]
      · simp only [pset, if_neg h0, pget, List.lookup]
        cases hk : (k' == k0)
        · simpa only [hk] using ih
        · simp only [hk]

theorem lookup_eq_none_of_not_mem {α β : Type} [BEq α] [LawfulBEq α]
    (l : List (α × β)) (k : α) (h : k ∉ l.map Prod.fst) :
    l.lookup k = none := by
  induction l with
  | nil => rfl
  | cons kv rest ih =>
      simp only [List.map_cons, List.mem_cons] at h
      push_neg at h
      simp [List.lookup, beq_false_of_ne h.1, ih h.2]

theorem not_mem_of_lookup_eq_none {α β : Type} [BEq α] [LawfulBEq α]
    (l : List (α × β)) (k : α) (h : l.lookup k = none) :
    k ∉ l.map Prod.fst := by
  induction l with
  | nil => simp
  | cons kv rest ih =>
      simp only [List.lookup] at h
      by_cases hk : k = kv.1
      · rw [show (k == kv.1) = true from beq_iff_eq.mpr hk] at h
        cases h
      · rw [show (k == kv.1) = false from beq_eq_false_iff_ne.mpr hk] at h
        simp [ih h, hk]

theorem mem_of_lookup_eq_some {α β : Type} [BEq α] [LawfulBEq α]
    (l : List (α × β)) (k : α) (v : β) (h : l.lookup k = some v) :
    k ∈ l.map Prod.fst := by
  induction l with
  | nil => cases h
  | cons kv rest ih =>
      simp only [List.lookup] at h
      by_cases hk : k = kv.1
      · simp [hk]
      · rw [show (k == kv.1) = false from beq_eq_false_iff_ne.mpr hk] at h
        simp [ih h]

theorem lookup_append_right {α β : Type} [BEq α] [LawfulBEq α]
    (l : List (α × β)) (k : α) (v : β) (h : l.lookup k = none) :
    (l ++ [(k, v)]).lookup k = some v := by
  induction l with
  | nil => simp [List.lookup]
  | cons kv rest ih =>
      simp only [List.lookup] at h ⊢
      cases hk : (k == kv.1) with
      | true => rw [hk] at h; cases h
      | false => rw [hk] at h; exact ih h

/-! ## Lemmas about the `get_attendance` parameter pre-processing -/

theorem pget_convertTsParam_ne (p : Params) (key k : String) (h : k ≠ key) :
    pget (convertTsParam p key) k = pget p k := by
  unfold convertTsParam
  split
  · split
    · exact pget_pset_ne _ _ _ _ h
    · rfl
  · rfl

theorem convertTsParam_of_int (p : Params) (key : String) (ts : Int)
    (h : pget p key = some (.vint ts)) (hts : ts ≠ 0) :
    pget (convertTsParam p key) key = some (.vdatetime ts) := by
  unfold convertTsParam
  rw [h]
  simp [hts, pget_pset_same]

theorem convertTsParam_of_zero (p : Params) (key : String)
    (h : pget p key = some (.vint 0)) :
    convertTsParam p key = p := by
  unfold convertTsParam
  rw [h]
  simp

/-! ## Assoc-list counting lemmas -/

theorem filter_key_nil {α β : Type} [BEq α] [LawfulBEq α]
    (l : List (α × β)) (k : α) (h : k ∉ l.map Prod.fst) :
    l.filter (fun kv => kv.1 == k) = [] := by
  induction l with
  | nil => rfl
  | cons kv rest ih =>
      simp only [List.map_cons, List.mem_cons, not_or] at h
      simp [List.filter_cons, beq_eq_false_iff_ne.mpr (fun e => h.1 e.symm),
        ih h.2]

theorem filter_key_length_one {α β : Type} [BEq α] [LawfulBEq α]
    (l : List (α × β)) (k : α) (hn : (l.map Prod.fst).Nodup)
    (hm : k ∈ l.map Prod.fst) :
    (l.filter (fun kv => kv.1 == k)).length = 1 := by
  induction l with
  | nil => simp at hm
  | cons kv rest ih =>
      simp only [List.map_cons, List.nodup_cons] at hn
      rcases List.mem_cons.mp hm with h | h
      · subst h
        simp [List.filter_cons, filter_key_nil rest kv.1 hn.1]
      · have hne : kv.1 ≠ k := fun e => hn.1 (e ▸ h)
        simp [List.filter_cons, beq_eq_false_iff_ne.mpr hne, ih hn.2 h]

/-! ## Registration (claim C4) -/

/-- C4: registering an already-present `device_id` returns the
AlreadyExists-style failure dict and leaves the whole registry state (record
map, capability map, persisted file) untouched, with exactly one record for
that id; a successful registration with absent/null port and password
substitutes the defaults 4370 and 0 into both the record and the bound
capability. -/
theorem register_device_duplicate_and_defaults (p : PoolState) (id : String)
    (ip : Option String) (port? password? : Option Int)
    (name location : Option String) :
    ((p.devices.lookup (some id)).isSome = true →
      register_device p (some id) ip port? password? name location
        = (p, .vdict [("success", .vbool false),
                      ("message", .vstr s!"Device {id} already registered"),
                      ("device_id", .vstr id)])) ∧
    ((p.devices.lookup (some id)).isSome = true →
      (p.devices.map Prod.fst).Nodup →
      (((register_device p (some id) ip port? password? name location).1.devices.filter
        (fun kv => kv.1 == some id)).length = 1)) ∧
    (p.devices.lookup (some id) = none →
      p.device_cores.lookup (some id) = none →
      ((register_device p (some id) ip none none name location).1.devices.lookup (some id)
        = some { device_id := some id, device_ip := ip, port := 4370, password := 0,
                 name := name, location := location } ∧
       (register_device p (some id) ip none none name location).1.device_cores.lookup (some id)
        = some { device_ip := ip, port := 4370, password := 0 })) := by
  refine ⟨fun h => ?_, fun h hn => ?_, fun h hc => ?_⟩
  · simp [register_device, h, pyShow, optStr]
  · have hmem : some id ∈ p.devices.map Prod.fst := by
      rcases Option.isSome_iff_exists.mp h with ⟨v, hv⟩
      exact mem_of_lookup_eq_some _ _ _ hv
    simp only [register_device, h, if_true]
    exact filter_key_length_one _ _ hn hmem
  · have h' : (p.devices.lookup (some id)).isSome = false := by
      simp [h]
    constructor
    · simp only [register_device, h', Bool.false_eq_true, if_false]
      exact lookup_append_right _ _ _ h
    · simp only [register_device, h', Bool.false_eq_true, if_false]
      exact lookup_append_right _ _ _ hc

/-- Concrete pool used by the registration witness. -/
def c4Pool : PoolState :=
  (register_device PoolState.empty (some "d1") (some "10.0.0.5") none none none none).1

/-- Witness for the registration theorem at a concrete pool holding `d1`. -/
theorem register_device_duplicate_witness :
    (register_device c4Pool (some "d1") (some "10.0.0.9") (some 1) (some 2) none none
      = (c4Pool, .vdict [("success", .vbool false),
                         ("message", .vstr "Device d1 already registered"),
                         ("device_id", .vstr "d1")])) ∧
    ((register_device c4Pool (some "d1") (some "10.0.0.9") (some 1) (some 2)
        none none).1.devices.filter (fun kv => kv.1 == some "d1")).length = 1 ∧
    ((register_device PoolState.empty (some "d2") (some "10.0.0.7") none none none
        none).1.devices.lookup (some "d2")
      = some { device_id := some "d2", device_ip := some "10.0.0.7", port := 4370,
               password := 0, name := none, location := none } ∧
     (register_device PoolState.empty (some "d2") (some "10.0.0.7") none none none
        none).1.device_cores.lookup (some "d2")
      = some { device_ip := some "10.0.0.7", port := 4370, password := 0 }) :=
  ⟨(register_device_duplicate_and_defaults c4Pool "d1" (some "10.0.0.9")
      (some 1) (some 2) none none).1 rfl,
   (register_device_duplicate_and_defaults c4Pool "d1" (some "10.0.0.9")
      (some 1) (some 2) none none).2.1 rfl (by decide),
   (register_device_duplicate_and_defaults PoolState.empty "d2" (some "10.0.0.7")
      none none none none).2.2 rfl rfl⟩

/-! ## `get_attendance` pre-processing (claim C8) -/

/-- C8 counterexample: a `start_time` parameter holding the Unix timestamp
`0` is present, yet the `if start_time:` truthiness guard leaves it
unconverted — the operation receives the bare integer, not the datetime the
claim promises. -/
theorem attendance_zero_start_time_unconverted :
    pget (preprocessAttendance [("start_time", .vint 0)]) "start_time"
      = some (.vint 0) ∧
    pget (preprocessAttendance [("start_time", .vint 0)]) "start_time"
      ≠ some (.vdatetime 0) := by
  constructor
  · rfl
  · intro h
    rw [show pget (preprocessAttendance [("start_time", .vint 0)]) "start_time"
          = some (.vint 0) from rfl] at h
    exact Value.noConfusion (Option.some.inj h)

/-- C8 (amended): for a `get_attendance` dispatch, a present *nonzero*
`start_time`/`end_time` Unix timestamp is converted to the UTC datetime the
device operation expects (a zero timestamp is present but falsy and passes
through unconverted, per the counterexample); `limit` is set to 1000 when
absent and passed through unchanged otherwise. -/
theorem attendance_preprocessing (params : Params) :
    (∀ ts : Int, ts ≠ 0 → pget params "start_time" = some (.vint ts) →
      pget (preprocessAttendance params) "start_time" = some (.vdatetime ts)) ∧
    (∀ ts : Int, ts ≠ 0 → pget params "end_time" = some (.vint ts) →
      pget (preprocessAttendance params) "end_time" = some (.vdatetime ts)) ∧
    (pget params "limit" = none →
      pget (preprocessAttendance params) "limit" = some (.vint 1000)) ∧
    (∀ v : Value, pget params "limit" = some v →
      pget (preprocessAttendance params) "limit" = some v) ∧
    (∀ c : String, effectiveParams c params
      = if c = "get_attendance" then preprocessAttendance params else params) := by
  refine ⟨fun ts hts h => ?_, fun ts hts h => ?_, fun h => ?_, fun v h => ?_,
    fun c => rfl⟩
  · simp only [preprocessAttendance]
    rw [pget_pset_ne _ _ _ _ (by decide)]
    rw [pget_convertTsParam_ne _ _ _ (by decide)]
    exact convertTsParam_of_int _ _ ts h hts
  · simp only [preprocessAttendance]
    rw [pget_pset_ne _ _ _ _ (by decide)]
    have h1 : pget (convertTsParam params "start_time") "end_time"
        = some (.vint ts) := by
      rw [pget_convertTsParam_ne _ _ _ (by decide)]; exact h
    exact convertTsParam_of_int _ _ ts h1 hts
  · simp only [preprocessAttendance]
    have h2 : pget (convertTsParam (convertTsParam params "start_time")
        "end_time") "limit" = none := by
      rw [pget_convertTsParam_ne _ _ _ (by decide),
          pget_convertTsParam_ne _ _ _ (by decide)]
      exact h
    rw [pget_pset_same, pgetD, h2]
    rfl
  · simp only [preprocessAttendance]
    have h2 : pget (convertTsParam (convertTsParam params "start_time")
        "end_time") "limit" = some v := by
      rw [pget_convertTsParam_ne _ _ _ (by decide),
          pget_convertTsParam_ne _ _ _ (by decide)]
      exact h
    rw [pget_pset_same, pgetD, h2]
    rfl

/-- Witness for the pre-processing theorem at a concrete parameter dict. -/
theorem attendance_preprocessing_witness :
    pget (preprocessAttendance [("start_time", .vint 1700000000)]) "start_time"
      = some (.vdatetime 1700000000) ∧
    pget (preprocessAttendance [("start_time", .vint 1700000000)]) "limit"
      = some (.vint 1000) :=
  ⟨(attendance_preprocessing [("start_time", .vint 1700000000)]).1 1700000000
      (by decide) rfl,
   (attendance_preprocessing [("start_time", .vint 1700000000)]).2.2.1 rfl⟩

/-! ## Attendance retrieval (claim C9) -/

/-- Record used by the attendance counterexample: a punch at epoch 0. -/
def epochZeroLog : AttLog := ⟨some "u1", some 0, none, none, none⟩

/-- C9 counterexample: with the window `[-5, ∞)` requested, the record at
epoch 0 lies inside the window (−5 ≤ 0), yet `get_attendance` drops it (the
`l["timestamp"] and …` guard treats epoch 0 as missing); the claim-modelled
`get_attendance_spec` keeps it. -/
theorem get_attendance_window_counterexample :
    get_attendance [epochZeroLog] (some (-5)) none none none = [] ∧
    get_attendance_spec [epochZeroLog] (some (-5)) none none none = [epochZeroLog] ∧
    (-5 : Int) ≤ 0 :=
  ⟨by decide, by decide, by decide⟩

theorem filter_key_orderedInsert (k : Int) (a : AttLog) (L : List AttLog) :
    (List.orderedInsert attGE a L).filter (fun x => attSortKey x == k)
      = if attSortKey a == k
        then a :: L.filter (fun x => attSortKey x == k)
        else L.filter (fun x => attSortKey x == k) := by
  induction L with
  | nil =>
      by_cases hk : (attSortKey a == k) = true <;>
        simp [List.orderedInsert, List.filter, hk]
  | cons b L ih =>
      by_cases hr : attGE a b
      · by_cases hk : (attSortKey a == k) = true <;>
          simp [List.orderedInsert, hr, List.filter_cons, hk]
      · simp only [List.orderedInsert, if_neg hr, List.filter_cons]
        by_cases hbk : (attSortKey b == k) = true
        · by_cases hak : (attSortKey a == k) = true
          · exfalso
            have h1 : attSortKey b = k := by simpa using hbk
            have h2 : attSortKey a = k := by simpa using hak
            exact hr (by unfold attGE; rw [h1, h2])
          · simp [hbk, hak, ih]
        · simp [hbk, ih]

theorem filter_key_insertionSort (k : Int) (l : List AttLog) :
    (List.insertionSort attGE l).filter (fun x => attSortKey x == k)
      = l.filter (fun x => attSortKey x == k) := by
  induction l with
  | nil => rfl
  | cons a l ih =>
      simp only [List.insertionSort]
      rw [filter_key_orderedInsert]
      by_cases hk : (attSortKey a == k) = true <;>
        simp [List.filter_cons, hk, ih]

/-- The newest-first stable sort of the filtered records — the list from
which `get_attendance` takes its limit slice. -/
def sortedFiltered (raw : List AttLog) (start_time end_time : Option Int)
    (user_id : Option String) : List AttLog :=
  List.insertionSort attGE (raw.filter (attKeep start_time end_time user_id))

/-- C9 (amended): `get_attendance` returns exactly the records passing the
code's filter — inside the closed window *and with a non-null, nonzero
timestamp* when a time filter is given, matching a non-empty `user_id`
filter — sorted newest-first and stably (records with equal timestamp keys
keep their device order: `sortedFiltered` is a permutation of the filtered
records, sorted, with every equal-key fibre preserved verbatim, which
determines it uniquely), and the limit truncation is applied only after
sorting: a positive limit returns precisely the length-`n` prefix of that
sorted list, a negative limit the corresponding Python slice of it, and a
null or zero limit the whole of it. -/
theorem get_attendance_filter_sort_limit (raw : List AttLog)
    (start_time end_time : Option Int) (user_id : Option String)
    (limit : Option Int) :
    (sortedFiltered raw start_time end_time user_id).Perm
      (raw.filter (attKeep start_time end_time user_id)) ∧
    List.Sorted attGE (sortedFiltered raw start_time end_time user_id) ∧
    (∀ k : Int,
      (sortedFiltered raw start_time end_time user_id).filter
          (fun x => attSortKey x == k)
        = (raw.filter (attKeep start_time end_time user_id)).filter
            (fun x => attSortKey x == k)) ∧
    ((limit = none ∨ limit = some 0) →
      get_attendance raw start_time end_time user_id limit
        = sortedFiltered raw start_time end_time user_id) ∧
    (∀ n : Int, limit = some n → n ≠ 0 →
      get_attendance raw start_time end_time user_id limit
        = pySliceTo (sortedFiltered raw start_time end_time user_id) n) ∧
    (∀ n : Int, limit = some n → 0 < n →
      get_attendance raw start_time end_time user_id limit
        = (sortedFiltered raw start_time end_time user_id).take n.toNat) := by
  refine ⟨List.perm_insertionSort attGE _, List.sorted_insertionSort attGE _,
    fun k => filter_key_insertionSort k _, fun h => ?_, fun n hn hn0 => ?_,
    fun n hn hpos => ?_⟩
  · rcases h with h | h <;> subst h <;>
      simp [get_attendance, sortedFiltered]
  · subst hn
    simp [get_attendance, sortedFiltered, hn0]
  · subst hn
    have hn0 : n ≠ 0 := by omega
    have hp : n ≥ 0 := le_of_lt hpos
    simp [get_attendance, sortedFiltered, pySliceTo, hn0, hp]

/-- Witness for the attendance theorem at a concrete log list: limit 1
returns the one-element prefix of the sorted list, no limit returns the
whole sorted list. -/
theorem get_attendance_filter_sort_limit_witness :
    get_attendance [⟨some "a", some 30, none, none, none⟩,
                    ⟨some "b", some 40, none, none, none⟩]
        none none none (some 1)
      = (sortedFiltered [⟨some "a", some 30, none, none, none⟩,
                         ⟨some "b", some 40, none, none, none⟩]
          none none none).take (1 : Int).toNat ∧
    get_attendance [⟨some "a", some 30, none, none, none⟩,
                    ⟨some "b", some 40, none, none, none⟩]
        none none none none
      = sortedFiltered [⟨some "a", some 30, none, none, none⟩,
                        ⟨some "b", some 40, none, none, none⟩]
          none none none :=
  ⟨(get_attendance_filter_sort_limit _ none none none (some 1)).2.2.2.2.2 1
      rfl (by decide),
   (get_attendance_filter_sort_limit _ none none none none).2.2.2.1
      (Or.inl rfl)⟩

/-! ## User update (claim C10) -/

theorem findUser_uid (d : DeviceState) (uid : Int) (u : DUser)
    (h : findUser d uid = some u) : u.uid = uid := by
  have := List.find?_some h
  exact beq_iff_eq.mp this

theorem map_replace_self {l : List DUser} {u : DUser}
    (hn : (l.map DUser.uid).Nodup) (hm : u ∈ l) :
    l.map (fun v => if v.uid == u.uid then u else v) = l := by
  induction l with
  | nil => rfl
  | cons a rest ih =>
      simp only [List.map_cons, List.nodup_cons] at hn
      rcases List.mem_cons.mp hm with h | h
      · subst h
        have hrest : ∀ v ∈ rest, (if v.uid == u.uid then u else v) = v := by
          intro v hv
          have hne : v.uid ≠ u.uid := by
            intro he
            exact hn.1 (he ▸ List.mem_map_of_mem DUser.uid hv)
          simp [beq_eq_false_iff_ne.mpr hne]
        simp only [List.map_cons, beq_self_eq_true, if_true]
        rw [List.map_congr_left hrest]
        simp
      · have hne : a.uid ≠ u.uid := by
          intro he
          exact hn.1 (he ▸ List.mem_map_of_mem DUser.uid h)
        simp only [List.map_cons, beq_eq_false_iff_ne.mpr hne,
          Bool.false_eq_true, if_false]
        rw [ih hn.2 h]

theorem setUser_mem_self (d : DeviceState) (u : DUser)
    (hn : (d.users.map DUser.uid).Nodup) (hm : u ∈ d.users) :
    setUser d u = d := by
  obtain ⟨users⟩ := d
  have hany : (users.any fun v => v.uid == u.uid) = true :=
    List.any_eq_true.mpr ⟨u, hm, by simp⟩
  simp only [setUser, hany, if_true, DeviceState.mk.injEq]
  exact map_replace_self hn hm

/-- C10: `update_user` fails with a `DeviceError` and writes nothing when no
user has the given uid; otherwise it writes back a record whose unset
optional fields carry the user's existing values and whose `user_id` is
preserved; with all optional fields absent the device is rewritten
identically (uids on a device are unique keys). -/
theorem update_user_merge (d : DeviceState) (uid : Int)
    (name : Option String) (privilege : Option Int)
    (password : Option String) (card : Option Int) :
    (findUser d uid = none →
      update_user d uid name privilege password card
        = (d, .error s!"Failed to update user: User with UID {uid} not found on device")) ∧
    (∀ u, findUser d uid = some u →
      (update_user d uid name privilege password card).1
        = setUser d { uid := uid, user_id := u.user_id, name := name.getD u.name,
                      privilege := privilege.getD u.privilege,
                      password := password.getD u.password,
                      card := card.getD u.card }) ∧
    ((d.users.map DUser.uid).Nodup →
      (update_user d uid none none none none).1 = d) := by
  refine ⟨fun h => ?_, fun u hu => ?_, fun hn => ?_⟩
  · simp [update_user, h]
  · simp [update_user, hu]
  · cases hfind : findUser d uid with
    | none => simp [update_user, hfind]
    | some u =>
        have huid := findUser_uid d uid u hfind
        have hmem := List.mem_of_find?_eq_some hfind
        simp only [update_user, hfind, Option.getD_none]
        have hu : ({ uid := uid, user_id := u.user_id, name := u.name,
                     privilege := u.privilege, password := u.password,
                     card := u.card } : DUser) = u := by
          cases u
          simp_all
        rw [hu]
        exact setUser_mem_self d u hn hmem

/-- Witness for the update theorem at a concrete device. -/
theorem update_user_merge_witness :
    (update_user ⟨[⟨7, "emp7", "Alice", 0, "", 0⟩]⟩ 9 none none none none
      = (⟨[⟨7, "emp7", "Alice", 0, "", 0⟩]⟩,
         .error "Failed to update user: User with UID 9 not found on device")) ∧
    (update_user ⟨[⟨7, "emp7", "Alice", 0, "", 0⟩]⟩ 7 none none none none).1
      = ⟨[⟨7, "emp7", "Alice", 0, "", 0⟩]⟩ :=
  ⟨(update_user_merge ⟨[⟨7, "emp7", "Alice", 0, "", 0⟩]⟩ 9
      none none none none).1 rfl,
   (update_user_merge ⟨[⟨7, "emp7", "Alice", 0, "", 0⟩]⟩ 7
      none none none none).2.2 (by decide)⟩

/-! ## Command dispatch (claims C1 and C7) -/

/-- C1: dispatching the management command `list_devices` never yields a
ResultEnvelope at all — `_execute_management_command` stores the bare list
returned by `DevicePoolManager.list_devices` in `result`, and building the
envelope evaluates `result.get("success", True)` on it, which raises an
`AttributeError` that the handler re-raises as `DeviceError`.  The "result
is always a mapping" invariant therefore fails on this management command
(shown on the empty registry and on a one-device registry). -/
theorem execute_command_list_devices_raises :
    (execute_command PoolState.empty
      { id := some "cmd-1", command := some "list_devices", device_id := none,
        device_ip := none, params := [] }
      { is_online := false, info := .error "" } (.ok .vnull) "agent-1" "aa:bb" 0
      = .error "Failed to execute management command: list object has no attribute get") ∧
    (execute_command
      (register_device PoolState.empty (some "dev-9") (some "10.0.0.9")
        none none none none).1
      { id := some "cmd-2", command := some "list_devices", device_id := none,
        device_ip := none, params := [] }
      { is_online := false, info := .error "" } (.ok .vnull) "agent-1" "aa:bb" 0
      = .error "Failed to execute management command: list object has no attribute get") :=
  ⟨rfl, rfl⟩

/-- C7: an unmapped, non-management command produces a structured failure
envelope naming the unknown command; a missing routing target and a missing
command name are reported by distinct dedicated messages; all three paths
return an envelope rather than raising. -/
theorem execute_command_failure_paths (p : PoolState) (cmd : CommandData)
    (health : HealthOracle) (outcome : OpOutcome) (agent mac : String)
    (now : Int) :
    (∀ c ident, cmd.command = some c →
      managementCommands.contains c = false →
      commandMap.lookup c = none →
      routeTarget cmd = some ident →
      c ≠ "" →
      execute_command p cmd health outcome agent mac now
        = .ok (p, { id := cmd.id, agent_id := agent, command := cmd.command,
                    mac_address := mac,
                    result := .vdict [("error", .vstr ("Unknown command: " ++ c))],
                    device_ip := .vstr "", device_id := .vstr ident,
                    success := false, timestamp := now })) ∧
    ((match cmd.command with
      | some c => managementCommands.contains c
      | none => false) = false →
      routeTarget cmd = none →
      execute_command p cmd health outcome agent mac now
        = .ok (p, { id := cmd.id, agent_id := agent, command := cmd.command,
                    mac_address := mac,
                    result := .vdict
                      [("error", .vstr "Missing device_id or device_ip in command")],
                    device_ip := .vstr "", device_id := .vstr "",
                    success := false, timestamp := now })) ∧
    (∀ ident,
      (match cmd.command with
       | some c => managementCommands.contains c
       | none => false) = false →
      routeTarget cmd = some ident →
      truthyOptStr cmd.command = none →
      execute_command p cmd health outcome agent mac now
        = .ok (p, { id := cmd.id, agent_id := agent, command := cmd.command,
                    mac_address := mac,
                    result := .vdict [("error", .vstr "Missing command in request")],
                    device_ip := .vstr "", device_id := .vstr ident,
                    success := false, timestamp := now })) ∧
    ("Missing device_id or device_ip in command"
      ≠ "Missing command in request") := by
  refine ⟨fun c ident hc hmgmt hmap hroute hne => ?_, fun hmgmt hroute => ?_,
    fun ident hmgmt hroute htruthy => ?_, by decide⟩
  · have hstr : s!"Unknown command: {c}" = "Unknown command: " ++ c := by
      show toString "Unknown command: " ++ toString c ++ toString ""
        = "Unknown command: " ++ c
      have h1 : ∀ s : String, toString s = s := fun _ => rfl
      rw [h1, h1, h1, String.append_empty]
    simp only [execute_command, hc, hmgmt, Bool.false_eq_true, if_false,
      hroute, truthyOptStr, if_neg hne, hmap, hstr]
  · simp only [execute_command, hmgmt, Bool.false_eq_true, if_false, hroute]
  · simp only [execute_command, hmgmt, Bool.false_eq_true, if_false, hroute,
      htruthy]

/-- Witness for the dispatch-failure theorem at concrete envelopes. -/
theorem execute_command_failure_paths_witness :
    (execute_command PoolState.empty
      { id := some "w1", command := some "bogus_cmd", device_id := some "d1",
        device_ip := none, params := [] }
      { is_online := false, info := .error "" } (.ok .vnull) "a" "m" 3
      = .ok (PoolState.empty,
          { id := some "w1", agent_id := "a", command := some "bogus_cmd",
            mac_address := "m",
            result := .vdict [("error", .vstr ("Unknown command: " ++ "bogus_cmd"))],
            device_ip := .vstr "", device_id := .vstr "d1",
            success := false, timestamp := 3 })) ∧
    (execute_command PoolState.empty
      { id := some "w2", command := some "get_users", device_id := none,
        device_ip := none, params := [] }
      { is_online := false, info := .error "" } (.ok .vnull) "a" "m" 4
      = .ok (PoolState.empty,
          { id := some "w2", agent_id := "a", command := some "get_users",
            mac_address := "m",
            result := .vdict
              [("error", .vstr "Missing device_id or device_ip in command")],
            device_ip := .vstr "", device_id := .vstr "",
            success := false, timestamp := 4 })) ∧
    (execute_command PoolState.empty
      { id := some "w3", command := none, device_id := some "d1",
        device_ip := none, params := [] }
      { is_online := false, info := .error "" } (.ok .vnull) "a" "m" 5
      = .ok (PoolState.empty,
          { id := some "w3", agent_id := "a", command := none,
            mac_address := "m",
            result := .vdict [("error", .vstr "Missing command in request")],
            device_ip := .vstr "", device_id := .vstr "d1",
            success := false, timestamp := 5 })) :=
  ⟨(execute_command_failure_paths PoolState.empty
      { id := some "w1", command := some "bogus_cmd", device_id := some "d1",
        device_ip := none, params := [] }
      { is_online := false, info := .error "" } (.ok .vnull) "a" "m" 3).1
      "bogus_cmd" "d1" rfl rfl rfl rfl (by decide),
   (execute_command_failure_paths PoolState.empty
      { id := some "w2", command := some "get_users", device_id := none,
        device_ip := none, params := [] }
      { is_online := false, info := .error "" } (.ok .vnull) "a" "m" 4).2.1
      rfl rfl,
   (execute_command_failure_paths PoolState.empty
      { id := some "w3", command := none, device_id := some "d1",
        device_ip := none, params := [] }
      { is_online := false, info := .error "" } (.ok .vnull) "a" "m" 5).2.2.1
      "d1" rfl rfl rfl⟩

/-! ## Event delivery (claim C5) -/

theorem runAttempts_actions (l : List AttemptResult) :
    ((runAttempts l).2.filter (fun a => a == EngineAction.post)).length ≤ l.length ∧
    (∀ n, EngineAction.sleep n ∈ (runAttempts l).2 → n = 5) := by
  induction l with
  | nil => exact ⟨by simp [runAttempts], by simp [runAttempts]⟩
  | cons r rest ih =>
      cases rest with
      | nil =>
          cases r with
          | status c =>
              by_cases h : isSuccessStatus c <;>
                simp [runAttempts, h, List.filter]
          | transportError => simp [runAttempts, List.filter]
      | cons r2 rest2 =>
          have step : ∀ t : Bool × List EngineAction,
              t = runAttempts (r2 :: rest2) →
              ((EngineAction.post :: EngineAction.sleep RETRY_DELAY_SECONDS ::
                  t.2).filter (fun a => a == EngineAction.post)).length
                ≤ (r :: r2 :: rest2).length ∧
              (∀ n, EngineAction.sleep n ∈ EngineAction.post ::
                  EngineAction.sleep RETRY_DELAY_SECONDS :: t.2 → n = 5) := by
            intro t ht
            subst ht
            constructor
            · simp only [List.filter_cons,
                show (EngineAction.post == EngineAction.post) = true from rfl,
                show (EngineAction.sleep RETRY_DELAY_SECONDS
                  == EngineAction.post) = false from rfl,
                if_true, Bool.false_eq_true, if_false, List.length_cons]
              have := ih.1
              simp only [List.length_cons] at this
              omega
            · intro n hn
              rcases List.mem_cons.mp hn with h | h
              · cases h
              · rcases List.mem_cons.mp h with h | h
                · cases h; rfl
                · exact ih.2 n h
          cases r with
          | status c =>
              by_cases h : isSuccessStatus c
              · simp [runAttempts, h, List.filter]
              · have := step (runAttempts (r2 :: rest2)) rfl
                simpa [runAttempts, h] using this
          | transportError =>
              have := step (runAttempts (r2 :: rest2)) rfl
              simpa [runAttempts] using this

theorem logError_getLast (s : StreamStats) (m : String) (now : Int) :
    (logError s m now).errors.getLast?.map ErrorRecord.message = some m := by
  simp only [logError]
  by_cases hlen : (s.errors ++ [(⟨m, now⟩ : ErrorRecord)]).length > 50
  · rw [if_pos hlen]
    have hk : (s.errors ++ [(⟨m, now⟩ : ErrorRecord)]).length - 50
        ≤ s.errors.length := by
      simp only [List.length_append, List.length_singleton]
      omega
    rw [List.drop_append_of_le_length hk, List.getLast?_concat]
    rfl
  · rw [if_neg hlen, List.getLast?_concat]
    rfl

theorem sendEventToServer_success (stats : StreamStats) (q : List EventPayload)
    (payload : EventPayload) (attempts : List AttemptResult) (now : Int)
    (hok : (runAttempts (padAttempts attempts)).1 = true) :
    sendEventToServer stats q payload attempts now
      = ({ stats with total_events_sent := stats.total_events_sent + 1,
                      last_event_time := some now }, q, true,
         (runAttempts (padAttempts attempts)).2) := by
  simp only [sendEventToServer]
  rw [hok]
  simp

theorem sendEventToServer_failure (stats : StreamStats) (q : List EventPayload)
    (payload : EventPayload) (attempts : List AttemptResult) (now : Int)
    (hfail : (runAttempts (padAttempts attempts)).1 = false) :
    sendEventToServer stats q payload attempts now
      = ((queueFailedEvent
            { stats with failed_events := stats.failed_events + 1 } q payload now).1,
         (queueFailedEvent
            { stats with failed_events := stats.failed_events + 1 } q payload now).2,
         false, (runAttempts (padAttempts attempts)).2) := by
  simp only [sendEventToServer]
  rw [hfail]
  simp

/-- C5: each posting attempts delivery at most 3 times with a fixed 5-second
sleep between attempts (only non-2xx statuses and transport errors fail an
attempt); exhaustion bumps `failed_events` and enqueues the payload on the
bounded queue; on a full queue the event is dropped and the drop logged as
an error; the function is total (nothing is raised) and the queue never
exceeds 1000 entries. -/
theorem send_event_retry_overflow (stats : StreamStats) (q : List EventPayload)
    (payload : EventPayload) (attempts : List AttemptResult) (now : Int)
    (stats' : StreamStats) (q' : List EventPayload) (ok : Bool)
    (acts : List EngineAction)
    (h : sendEventToServer stats q payload attempts now = (stats', q', ok, acts)) :
    ((acts.filter (fun a => a == EngineAction.post)).length ≤ 3) ∧
    (∀ n, EngineAction.sleep n ∈ acts → n = 5) ∧
    (∀ c : Nat, ¬(200 ≤ c ∧ c ≤ 299) → isSuccessStatus c = false) ∧
    (ok = false → stats'.failed_events = stats.failed_events + 1) ∧
    (ok = false → q.length < 1000 → q' = q ++ [payload]) ∧
    (ok = false → ¬ q.length < 1000 → q' = q ∧
      stats'.errors.getLast?.map ErrorRecord.message
        = some "Event queue full - event discarded") ∧
    (q.length ≤ 1000 → q'.length ≤ 1000) := by
  have hacts := runAttempts_actions (padAttempts attempts)
  have hpad : (padAttempts attempts).length = 3 := rfl
  rw [hpad] at hacts
  have hstatus : ∀ c : Nat, ¬(200 ≤ c ∧ c ≤ 299) → isSuccessStatus c = false := by
    intro c hc
    simp only [isSuccessStatus, Bool.or_eq_false_iff, beq_eq_false_iff_ne]
    omega
  cases hrt : (runAttempts (padAttempts attempts)).1 with
  | true =>
      rw [sendEventToServer_success stats q payload attempts now hrt] at h
      injection h with h1 h
      injection h with h2 h
      injection h with h3 h4
      subst h1; subst h2; subst h3; subst h4
      refine ⟨hacts.1, hacts.2, hstatus, ?_, ?_, ?_, ?_⟩
      · intro hko; cases hko
      · intro hko; cases hko
      · intro hko; cases hko
      · intro hq; exact hq
  | false =>
      rw [sendEventToServer_failure stats q payload attempts now hrt] at h
      injection h with h1 h
      injection h with h2 h
      injection h with h3 h4
      subst h1; subst h2; subst h3; subst h4
      refine ⟨hacts.1, hacts.2, hstatus, fun _ => ?_, fun _ hlt => ?_,
        fun _ hge => ?_, fun hq => ?_⟩
      · by_cases hlt : q.length < 1000 <;>
          simp [queueFailedEvent, EVENT_QUEUE_MAX_SIZE, hlt, logError]
      · simp [queueFailedEvent, EVENT_QUEUE_MAX_SIZE, hlt]
      · constructor
        · simp [queueFailedEvent, EVENT_QUEUE_MAX_SIZE, hge]
        · simp only [queueFailedEvent, EVENT_QUEUE_MAX_SIZE, if_neg hge]
          exact logError_getLast _ _ _
      · by_cases hlt : q.length < 1000
        · simp only [queueFailedEvent, EVENT_QUEUE_MAX_SIZE, if_pos hlt]
          simp only [List.length_append, List.length_singleton]
          omega
        · simp [queueFailedEvent, EVENT_QUEUE_MAX_SIZE, hlt]
          exact hq

/-- Payload used by the delivery witness. -/
def witnessPayload : EventPayload := ⟨"device_001", .realtime, [], 0⟩

/-- Witness for the delivery theorem: with no attempt succeeding, the failed
counter bumps by one and the payload lands on the queue. -/
theorem send_event_retry_overflow_witness :
    (sendEventToServer {} [] witnessPayload [] 0).1.failed_events
      = ({} : StreamStats).failed_events + 1 ∧
    (sendEventToServer {} [] witnessPayload [] 0).2.1 = [] ++ [witnessPayload] :=
  ⟨(send_event_retry_overflow {} [] witnessPayload [] 0 _ _ _ _ rfl).2.2.2.1 rfl,
   (send_event_retry_overflow {} [] witnessPayload [] 0 _ _ _ _ rfl).2.2.2.2.1
     rfl (by decide)⟩

/-! ## Counter monotonicity (claim C6) -/

/-- Pointwise order on the four event counters. -/
def statsLe (a b : StreamStats) : Prop :=
  a.total_events_sent ≤ b.total_events_sent ∧
  a.historical_events_sent ≤ b.historical_events_sent ∧
  a.realtime_events_sent ≤ b.realtime_events_sent ∧
  a.failed_events ≤ b.failed_events

theorem statsLe_refl (a : StreamStats) : statsLe a a :=
  ⟨le_refl _, le_refl _, le_refl _, le_refl _⟩

theorem statsLe_trans {a b c : StreamStats} (h1 : statsLe a b)
    (h2 : statsLe b c) : statsLe a c :=
  ⟨h1.1.trans h2.1, h1.2.1.trans h2.2.1, h1.2.2.1.trans h2.2.2.1,
   h1.2.2.2.trans h2.2.2.2⟩

theorem logError_statsLe (s : StreamStats) (m : String) (now : Int) :
    statsLe s (logError s m now) :=
  ⟨le_refl _, le_refl _, le_refl _, le_refl _⟩

theorem queueFailedEvent_statsLe (s : StreamStats) (q : List EventPayload)
    (payload : EventPayload) (now : Int) :
    statsLe s (queueFailedEvent s q payload now).1 := by
  unfold queueFailedEvent
  by_cases h : q.length < EVENT_QUEUE_MAX_SIZE
  · rw [if_pos h]; exact statsLe_refl s
  · rw [if_neg h]; exact logError_statsLe s _ now

theorem sendEventToServer_statsLe (stats : StreamStats) (q : List EventPayload)
    (payload : EventPayload) (attempts : List AttemptResult) (now : Int) :
    statsLe stats (sendEventToServer stats q payload attempts now).1 := by
  cases hrt : (runAttempts (padAttempts attempts)).1 with
  | true =>
      rw [sendEventToServer_success stats q payload attempts now hrt]
      exact ⟨Nat.le_succ _, le_refl _, le_refl _, le_refl _⟩
  | false =>
      rw [sendEventToServer_failure stats q payload attempts now hrt]
      refine statsLe_trans (b := { stats with failed_events := stats.failed_events + 1 })
        ⟨le_refl _, le_refl _, le_refl _, Nat.le_succ _⟩ ?_
      exact queueFailedEvent_statsLe _ q payload now

theorem syncLogsLoop_statsLe (device_id : String) (now : Int)
    (logs : List (List (String × Value))) :
    ∀ (atts : List (List AttemptResult)) (acc : StreamStats × List EventPayload),
      statsLe acc.1 (syncLogsLoop device_id now logs atts acc).1 := by
  induction logs with
  | nil => intro atts acc; exact statsLe_refl _
  | cons log rest ih =>
      intro atts acc
      simp only [syncLogsLoop]
      refine statsLe_trans ?_ (ih atts.tail _)
      refine statsLe_trans (sendEventToServer_statsLe acc.1 acc.2
        ⟨device_id, .historical, log, now⟩ (atts.headD []) now) ?_
      by_cases hh : (sendEventToServer acc.1 acc.2
          ⟨device_id, .historical, log, now⟩ (atts.headD []) now).2.2.1 = true
      · rw [if_pos hh]
        exact ⟨le_refl _, Nat.le_succ _, le_refl _, le_refl _⟩
      · rw [if_neg hh]
        exact statsLe_refl _

theorem liveSendLoop_statsLe (device_id : String) (now : Int)
    (events : List (Option (List (String × Value)))) :
    ∀ (atts : List (List AttemptResult)) (acc : StreamStats × List EventPayload),
      statsLe acc.1 (liveSendLoop device_id now events atts acc).1 := by
  induction events with
  | nil => intro atts acc; exact statsLe_refl _
  | cons ev rest ih =>
      intro atts acc
      cases ev with
      | none =>
          simp only [liveSendLoop]
          exact ih atts acc
      | some e =>
          simp only [liveSendLoop]
          refine statsLe_trans ?_ (ih atts.tail _)
          refine statsLe_trans (sendEventToServer_statsLe acc.1 acc.2
            ⟨device_id, .realtime, e, now⟩ (atts.headD []) now) ?_
          by_cases hh : (sendEventToServer acc.1 acc.2
              ⟨device_id, .realtime, e, now⟩ (atts.headD []) now).2.2.1 = true
          · rw [if_pos hh]
            exact ⟨le_refl _, le_refl _, Nat.le_succ _, le_refl _⟩
          · rw [if_neg hh]
            exact statsLe_refl _

theorem reconnectAttempts_stats (s : EngineState) :
    ∀ (results : List Bool) (n : Nat),
      (reconnectAttempts s results n).1.stats = s.stats := by
  intro results n
  induction n generalizing results with
  | zero => rfl
  | succ n ih =>
      unfold reconnectAttempts
      split
      · split
        · rfl
        · split
          · exact ih results.tail
          · exact ih results.tail
      · rfl

theorem reconnect_stats (s : EngineState) (results : List Bool) :
    (reconnect s results).1.stats = s.stats := by
  unfold reconnect
  exact reconnectAttempts_stats _ results MAX_RETRY_ATTEMPTS

theorem syncHistorical_statsLe (s : EngineState) (device_id : String)
    (o : SyncOracle) (now : Int) :
    statsLe s.stats (syncHistorical s device_id o now).1.stats := by
  simp only [syncHistorical]
  split
  · split
    · exact logError_statsLe _ _ _
    · exact syncLogsLoop_statsLe device_id now _ o.attemptsFor
        (s.stats, s.event_queue)
  · exact statsLe_refl _

theorem liveIter_statsLe (s : EngineState) (device_id : String)
    (o : LiveIterOracle) :
    statsLe s.stats (liveIter s device_id o).1.stats := by
  simp only [liveIter]
  split
  · split
    · rw [reconnect_stats]
      exact logError_statsLe _ _ _
    · split
      · rw [reconnect_stats]
        refine statsLe_trans
          (liveSendLoop_statsLe device_id o.now o.events o.attemptsFor
            (s.stats, s.event_queue)) ?_
        exact logError_statsLe _ _ _
      · exact liveSendLoop_statsLe device_id o.now o.events o.attemptsFor
          (s.stats, s.event_queue)
  · exact statsLe_refl _

/-- C6: a delivery that succeeds (status 200/201/204) increments exactly
`total_events_sent` by one and stamps `last_event_time`; and every engine
operation leaves all four StreamStats counters non-decreasing — no operation
ever decrements a counter. -/
theorem stream_stats_monotone (device_id : String) :
    (∀ (stats : StreamStats) (q : List EventPayload) (payload : EventPayload)
       (attempts : List AttemptResult) (now : Int),
      (sendEventToServer stats q payload attempts now).2.2.1 = true →
      (sendEventToServer stats q payload attempts now).1.total_events_sent
          = stats.total_events_sent + 1 ∧
      (sendEventToServer stats q payload attempts now).1.last_event_time
          = some now) ∧
    (∀ (op : EngineOp) (s : EngineState),
      statsLe s.stats ((runOp device_id op s).1.stats)) := by
  constructor
  · intro stats q payload attempts now hok
    cases hrt : (runAttempts (padAttempts attempts)).1 with
    | true =>
        rw [sendEventToServer_success stats q payload attempts now hrt]
        exact ⟨rfl, rfl⟩
    | false =>
        rw [sendEventToServer_failure stats q payload attempts now hrt] at hok
        cases hok
  · intro op s
    cases op with
    | start now =>
        simp only [runOp]
        split
        · exact statsLe_refl _
        · exact statsLe_refl _
    | stop =>
        simp only [runOp]
        split
        · exact statsLe_refl _
        · exact statsLe_refl _
    | syncHist o now => exact syncHistorical_statsLe s device_id o now
    | enterLive =>
        simp only [runOp]
        split
        · exact statsLe_refl _
        · exact statsLe_refl _
    | liveIteration o => exact liveIter_statsLe s device_id o
    | reconnection results =>
        simp only [runOp]
        rw [reconnect_stats]
        exact statsLe_refl _
    | sendEvent payload attempts now =>
        simp only [runOp]
        exact sendEventToServer_statsLe s.stats s.event_queue payload attempts now
    | logErrorOp msg now =>
        simp only [runOp]
        exact logError_statsLe _ _ _

/-- Witness for the monotonicity theorem: a first-attempt success increments
the total counter, and a concrete failing live iteration never decreases any
counter. -/
theorem stream_stats_monotone_witness :
    (sendEventToServer {} [] witnessPayload [AttemptResult.status 200] 9).1.total_events_sent
      = ({} : StreamStats).total_events_sent + 1 ∧
    statsLe ({} : EngineState).stats
      ((runOp "device_001" (.sendEvent witnessPayload [] 2) {}).1.stats) :=
  ⟨((stream_stats_monotone "device_001").1 {} [] witnessPayload
      [AttemptResult.status 200] 9 rfl).1,
   (stream_stats_monotone "device_001").2 (.sendEvent witnessPayload [] 2) {}⟩

/-! ## Reconnection exhaustion (claim C2) -/

/-- Engine in the live phase: running and connected. -/
def c2Live : EngineState :=
  { mode := .live, is_running := true, connected := true }

/-- A live iteration in which the capture loop raises and all three
reconnect attempts fail. -/
def c2FailIter : LiveIterOracle :=
  { connectOk := true, events := [], attemptsFor := [], endsInError := true,
    errorMsg := "device unplugged", reconnectResults := [false, false, false],
    now := 0 }

/-- The engine state right after the exhausted reconnection. -/
def c2AfterError : EngineState := (liveIter c2Live "device_001" c2FailIter).1

/-- A follow-up iteration in which the device is still down. -/
def c2NextIter : LiveIterOracle :=
  { connectOk := false, events := [], attemptsFor := [], endsInError := false,
    errorMsg := "still down", reconnectResults := [false, false, false],
    now := 1 }

/-- A follow-up iteration whose reconnection succeeds on the first attempt. -/
def c2OkIter : LiveIterOracle :=
  { connectOk := false, events := [], attemptsFor := [], endsInError := false,
    errorMsg := "flap", reconnectResults := [true], now := 2 }

/-- C2 counterexample: after the reconnection sequence exhausts its three
attempts while the engine is running, the engine sits in `Error` with
`is_running` still true, and the very next live-loop iteration performs a
further connection attempt without any external restart — the engine does
not halt; a successful reconnection, moreover, leaves the mode at
`Reconnecting` rather than returning it to `Live`. -/
theorem reconnect_exhaustion_counterexample :
    c2AfterError.mode = .error ∧
    c2AfterError.is_running = true ∧
    (liveIter c2AfterError "device_001" c2NextIter).2.contains .connAttempt
      = true ∧
    (liveIter c2AfterError "device_001" c2OkIter).1.mode = .reconnecting :=
  ⟨by decide, by decide, by decide, by decide⟩

theorem reconnectAttempts_connected_mode (s : EngineState)
    (hmode : s.mode = .reconnecting) (hconn : s.connected = false) :
    ∀ (results : List Bool) (n : Nat),
      (reconnectAttempts s results n).1.connected = true →
      (reconnectAttempts s results n).1.mode = .reconnecting := by
  intro results n
  induction n generalizing results with
  | zero =>
      intro h
      rw [show (reconnectAttempts s results 0).1.connected = s.connected
        from rfl] at h
      rw [hconn] at h
      cases h
  | succ n ih =>
      unfold reconnectAttempts
      split
      · split
        · intro _; exact hmode
        · split
          · exact ih results.tail
          · exact ih results.tail
      · intro h
        rw [hconn] at h
        cases h

/-- C2 (amended): reconnection exhaustion sets the `Error` mode but does
not halt the engine — the running flag is untouched and the live loop's
only guard is `is_running`, so the next iteration attempts connection again
even from `Error`; a reconnection that ends up connected always leaves the
mode at `Reconnecting` (nothing ever sets it back to `Live`). -/
theorem reconnect_exhaustion_behavior (s : EngineState) (results : List Bool)
    (device_id : String) (o : LiveIterOracle) :
    (s.is_running = true → results.getD 0 false = false →
      results.getD 1 false = false → results.getD 2 false = false →
      (reconnect s results).1.mode = .error ∧
      (reconnect s results).1.is_running = s.is_running) ∧
    ((reconnect s results).1.connected = true →
      (reconnect s results).1.mode = .reconnecting) ∧
    (s.is_running = true → s.connected = false → o.connectOk = false →
      (liveIter s device_id o).2.contains .connAttempt = true) := by
  refine ⟨fun hr h0 h1 h2 => ?_, fun hc => ?_, fun hr hconn hok => ?_⟩
  · rcases results with _ | ⟨a, _ | ⟨b, _ | ⟨c, rest⟩⟩⟩ <;>
      simp_all [reconnect, reconnectAttempts, MAX_RETRY_ATTEMPTS]
  · exact reconnectAttempts_connected_mode _ rfl rfl results MAX_RETRY_ATTEMPTS hc
  · simp [liveIter, hr, hconn, hok]

/-- Witness for the amended reconnection theorem at concrete states. -/
theorem reconnect_exhaustion_behavior_witness :
    ((reconnect c2Live [false, false, false]).1.mode = .error ∧
     (reconnect c2Live [false, false, false]).1.is_running
        = c2Live.is_running) ∧
    (liveIter c2AfterError "device_001" c2NextIter).2.contains .connAttempt
      = true :=
  ⟨(reconnect_exhaustion_behavior c2Live [false, false, false] "device_001"
      c2NextIter).1 rfl rfl rfl rfl,
   (reconnect_exhaustion_behavior c2AfterError [] "device_001" c2NextIter).2.2
      (by decide) (by decide) rfl⟩

/-! ## Engine–registry consistency (claim C3) -/

/-- C3 counterexample trace: register `d`, start streaming it, then a bare
pool-level `unregister_device d` (reachable through the management command
path, which never talks to the coordinator). -/
def danglingTrace : SysState :=
  sysStep (.unregister (some "d"))
    (sysStep (.startStream "d")
      (sysStep (.register (some "d") (some "10.0.0.5") none none none none)
        SysState.init))

/-- C3 counterexample: the dangling state is reachable by the claim's own
operations, the coordinator still holds an engine for `d`, yet no registry
record for `d` exists — the invariant fails. -/
theorem engine_registry_invariant_counterexample :
    Reachable danglingTrace ∧
    danglingTrace.streams = ["d"] ∧
    danglingTrace.pool.devices = [] ∧
    ¬ EngineInv danglingTrace :=
  ⟨.step _ (.step _ (.step _ .init)), by decide, by decide, by decide⟩

/-- Strengthened inductive invariant: unique registry keys, every record
created by the modelled operations is active, every streaming id has a
record. -/
def StrongInv (s : SysState) : Prop :=
  (s.pool.devices.map Prod.fst).Nodup ∧
  (∀ kv ∈ s.pool.devices, kv.2.is_active = true) ∧
  (∀ id ∈ s.streams, some id ∈ s.pool.devices.map Prod.fst)

theorem strongInv_engineInv (s : SysState) (h : StrongInv s) : EngineInv s := by
  intro id hid
  have hmem := h.2.2 id hid
  unfold exactlyOneEnabled
  have heq : s.pool.devices.filter (fun kv => kv.1 == some id && kv.2.is_active)
      = s.pool.devices.filter (fun kv => kv.1 == some id) := by
    apply List.filter_congr
    intro kv hkv
    simp [h.2.1 kv hkv]
  rw [heq]
  exact filter_key_length_one _ _ h.1 hmem

theorem strongInv_register (s : SysState) (id ip : Option String)
    (port pw : Option Int) (name loc : Option String) (h : StrongInv s) :
    StrongInv { s with pool := (register_device s.pool id ip port pw name loc).1 } := by
  by_cases hdup : (s.pool.devices.lookup id).isSome = true
  · simp only [register_device, hdup, if_true]
    exact h
  · have hnone : s.pool.devices.lookup id = none := by
      cases hl : s.pool.devices.lookup id with
      | none => rfl
      | some v => rw [hl] at hdup; simp at hdup
    have hnot := not_mem_of_lookup_eq_none _ _ hnone
    simp only [register_device, hdup, Bool.false_eq_true, if_false, saveDevices]
    refine ⟨?_, ?_, ?_⟩
    · simp only [List.map_append, List.map_cons, List.map_nil]
      rw [List.nodup_append]
      refine ⟨h.1, List.nodup_singleton _, fun a ha hb => ?_⟩
      simp only [List.mem_singleton] at hb
      subst hb
      exact hnot ha
    · intro kv hkv
      rcases List.mem_append.mp hkv with hkv | hkv
      · exact h.2.1 kv hkv
      · simp only [List.mem_singleton] at hkv
        subst hkv
        rfl
    · intro i hi
      simp only [List.map_append, List.map_cons, List.map_nil]
      exact List.mem_append_left _ (h.2.2 i hi)

theorem strongInv_unregister (s : SysState) (oid : Option String)
    (hsafe : ∀ id, oid = some id → id ∉ s.streams) (h : StrongInv s) :
    StrongInv { s with pool := (unregister_device s.pool oid).1 } := by
  by_cases hmem : (s.pool.devices.lookup oid).isSome = true
  · simp only [unregister_device, hmem, if_true, saveDevices]
    refine ⟨?_, ?_, ?_⟩
    · exact List.Nodup.sublist ((List.filter_sublist _).map _) h.1
    · intro kv hkv
      exact h.2.1 kv (List.mem_of_mem_filter hkv)
    · intro id hid
      have hkey := h.2.2 id hid
      obtain ⟨kv, hkv, hkveq⟩ := List.mem_map.mp hkey
      have hne : kv.1 ≠ oid := by
        rw [hkveq]
        intro he
        exact hsafe id he.symm hid
      refine List.mem_map.mpr ⟨kv, ?_, hkveq⟩
      exact List.mem_filter.mpr ⟨hkv, by simpa using hne⟩
  · simp only [unregister_device, hmem, Bool.false_eq_true, if_false]
    exact h

theorem strongInv_start (s : SysState) (id : String) (h : StrongInv s) :
    StrongInv (start_streaming_device s id).1 := by
  unfold start_streaming_device
  by_cases hst : s.streams.contains id = true
  · rw [if_pos hst]
    exact h
  · rw [if_neg hst]
    cases hinfo : get_device_info s.pool (some id) with
    | none => exact h
    | some info =>
        refine ⟨h.1, h.2.1, ?_⟩
        intro i hi
        rcases List.mem_append.mp hi with hi | hi
        · exact h.2.2 i hi
        · simp only [List.mem_singleton] at hi
          subst hi
          exact mem_of_lookup_eq_some _ _ _ hinfo

theorem strongInv_stop (s : SysState) (id : String) (h : StrongInv s) :
    StrongInv (stop_streaming_device s id).1 := by
  unfold stop_streaming_device
  by_cases hst : s.streams.contains id = true
  · rw [if_pos hst]
    refine ⟨h.1, h.2.1, ?_⟩
    intro i hi
    exact h.2.2 i (List.mem_of_mem_filter hi)
  · rw [if_neg hst]
    exact h

theorem stop_removes (s : SysState) (id : String) :
    id ∉ (stop_streaming_device s id).1.streams := by
  unfold stop_streaming_device
  by_cases hst : s.streams.contains id = true
  · rw [if_pos hst]
    intro hmem
    have := List.mem_filter.mp hmem
    simp at this
  · rw [if_neg hst]
    intro hmem
    exact hst (List.elem_eq_true_of_mem hmem)

theorem strongInv_addstream (s : SysState) (id ip : String) (port : Option Int)
    (name loc : Option String) (auto : Bool) (h : StrongInv s) :
    StrongInv (add_device_and_stream s id ip port name loc auto).1 := by
  have h1 := strongInv_register s (some id) (some ip) port none name loc h
  unfold add_device_and_stream
  by_cases hsucc : dictSuccess
      (register_device s.pool (some id) (some ip) port none name loc).2 = true
  · rw [if_pos hsucc]
    by_cases hauto : auto = true
    · rw [if_pos hauto]
      exact strongInv_start _ id h1
    · rw [if_neg hauto]
      exact h1
  · rw [if_neg hsucc]
    exact h1

theorem strongInv_removestop (s : SysState) (id : String) (h : StrongInv s) :
    StrongInv (remove_device_and_stop_stream s id).1 := by
  unfold remove_device_and_stop_stream
  by_cases hst : s.streams.contains id = true
  · rw [if_pos hst]
    refine strongInv_unregister _ (some id) ?_ (strongInv_stop s id h)
    intro id' he hid'
    cases he
    exact stop_removes s id hid'
  · rw [if_neg hst]
    refine strongInv_unregister _ (some id) ?_ h
    intro id' he hid'
    cases he
    exact hst (List.elem_eq_true_of_mem hid')

theorem safeStep_strongInv (op : SysOp) (s : SysState) (hop : SafeOp op s)
    (h : StrongInv s) : StrongInv (sysStep op s) := by
  cases op with
  | register id ip port pw name loc =>
      exact strongInv_register s id ip port pw name loc h
  | unregister oid =>
      refine strongInv_unregister s oid ?_ h
      intro id' he
      subst he
      exact hop
  | startStream id => exact strongInv_start s id h
  | stopStream id => exact strongInv_stop s id h
  | addAndStream id ip port name loc auto =>
      exact strongInv_addstream s id ip port name loc auto h
  | removeAndStop id => exact strongInv_removestop s id h

theorem safeReachable_strongInv (s : SysState) (h : SafeReachable s) :
    StrongInv s := by
  induction h with
  | init =>
      refine ⟨List.nodup_nil, ?_, ?_⟩
      · intro kv hkv; cases hkv
      · intro i hi; cases hi
  | step op hop _ ih => exact safeStep_strongInv op _ hop ih

/-- C3 (amended): along every interleaving of the claim's operations in
which a bare `unregister_device` never targets a currently-streaming device
(the composite `remove_device_and_stop_stream` always stops the stream
first, so it is unrestricted), every device id held by the coordinator
corresponds to exactly one enabled registry record; the pool-level
`unregister_device` of a streaming device breaks the invariant, as the
counterexample shows. -/
theorem engine_registry_invariant_safe (s : SysState) (h : SafeReachable s) :
    EngineInv s :=
  strongInv_engineInv s (safeReachable_strongInv s h)

/-- Witness: the invariant holds in the concrete reachable state
register-then-stream. -/
theorem engine_registry_invariant_safe_witness :
    EngineInv (sysStep (.startStream "d")
      (sysStep (.register (some "d") (some "10.0.0.5") none none none none)
        SysState.init)) :=
  engine_registry_invariant_safe _
    (.step (.startStream "d") trivial
      (.step (.register (some "d") (some "10.0.0.5") none none none none)
        trivial .init))

end EsslAgent
